import Mathlib

/-!
# Verification of the P&L variance analyzer's parsing and classification core

This development shallowly embeds the core of the `pl-variance-analyzer`
repository (the P&L-by-month CSV parser `pl_parser.py`, the general-ledger
parsers `gl_analyzer.py` / `expense_analyzer.py`, the variance classifier
`expense_analyzer.py`, and the validator `validation.py`) and proves, or
refutes with concrete inputs, the stated behavioural properties.

Modelling conventions:
* Money amounts are modelled as rationals (`ℚ`): the decimal amounts handled
  by the code are exactly representable, and every tolerance comparison in the
  source is between such decimals.
* Spreadsheet cells are modelled by `Cell`: empty (pandas `NaN`), a string, or
  a number.  A table is a list of rows, a row a list of cells.
* Python `dict`s are modelled by insertion-ordered association lists with
  update-in-place semantics (`Dict.set`), matching Python's iteration order.
* Standard deviation and coefficient of variation are represented by their
  squares (`monthly_var`, `cv_sq`): `statistics.stdev` is a square root, which
  is irrational in general.  Every use in the source is a comparison of two
  non-negative quantities, so comparing squares is equivalent; thresholds are
  squared accordingly.
* Display-only strings (report text, `summary`, `notes`) and file/sheet
  selection are outside the model; fields holding them are omitted.
-/

/-! ## Python string primitives, over `List Char` -/

/-- Whitespace for Python's `str.strip` / `str.split()`. -/
def isPyWs (c : Char) : Bool :=
  c = ' ' ∨ c = '\t' ∨ c = '\n' ∨ c = '\r' ∨ c = '\x0b' ∨ c = '\x0c'

def lcDropWhile (p : Char → Bool) : List Char → List Char
  | [] => []
  | c :: cs => if p c then lcDropWhile p cs else c :: cs

/-- Python `str.strip()`. -/
def lcTrim (s : List Char) : List Char :=
  ((lcDropWhile isPyWs s.reverse).reverse |> lcDropWhile isPyWs)

def lcStartsWith : List Char → List Char → Bool
  | [], _ => true
  | _ :: _, [] => false
  | p :: ps, c :: cs => p = c && lcStartsWith ps cs

def lcEndsWith (pat s : List Char) : Bool :=
  lcStartsWith pat.reverse s.reverse

/-- Python `needle in haystack` for a non-empty needle. -/
def lcContains (pat : List Char) : List Char → Bool
  | [] => pat.isEmpty
  | c :: cs => lcStartsWith pat (c :: cs) || lcContains pat cs

def lcLower (s : List Char) : List Char := s.map Char.toLower

/-- Python `str.replace(old, new)` (all occurrences), with fuel for
termination; callers pass the string's length as fuel. -/
def lcReplaceAux (old new : List Char) : Nat → List Char → List Char
  | _, [] => []
  | 0, s => s
  | fuel + 1, c :: cs =>
    if old ≠ [] ∧ lcStartsWith old (c :: cs) then
      new ++ lcReplaceAux old new fuel ((c :: cs).drop old.length)
    else
      c :: lcReplaceAux old new fuel cs

def lcReplace (old new s : List Char) : List Char :=
  lcReplaceAux old new s.length s

/-- Python `str.split(sep)` for a single-character separator: keeps empties. -/
def lcSplitOn (sep : Char) : List Char → List (List Char)
  | [] => [[]]
  | c :: cs =>
    let rest := lcSplitOn sep cs
    if c = sep then [] :: rest
    else
      match rest with
      | [] => [[c]]
      | r :: rs => (c :: r) :: rs

/-- Python `str.split()` (no argument): splits on whitespace runs, drops
empty pieces. -/
def lcSplitWs (s : List Char) : List (List Char) :=
  ((lcSplitOn ' ' (s.map fun c => if isPyWs c then ' ' else c)).filter
    fun p => ¬ p.isEmpty)

/-- Python `str.isdigit()` restricted to ASCII digits. -/
def lcIsDigits (s : List Char) : Bool :=
  ¬ s.isEmpty && s.all Char.isDigit

def lcToNat (s : List Char) : Nat :=
  s.foldl (fun acc c => acc * 10 + (c.toNat - '0'.toNat)) 0

/-! ## Python `float()` on strings

Grammar modelled: optional surrounding whitespace, optional sign, a decimal
mantissa with at least one digit, optional `e`/`E` exponent.  (`inf`, `nan`
and digit-group underscores are not modelled; no claim concerns them.) -/

def pow10 (n : Nat) : ℚ := (10 : ℚ) ^ n

def digitsVal (ds : List Char) : ℚ := (lcToNat ds : ℚ)

def pyParseExp : List Char → Option Int
  | [] => none
  | c :: cs =>
    if c = '+' then if lcIsDigits cs then some (lcToNat cs : Int) else none
    else if c = '-' then if lcIsDigits cs then some (-(lcToNat cs : Int)) else none
    else if lcIsDigits (c :: cs) then some (lcToNat (c :: cs) : Int) else none

/-- Parse an unsigned mantissa with optional exponent suffix. -/
def pyParseMantissa (s : List Char) : Option ℚ :=
  let intPart := s.takeWhile Char.isDigit
  let rest := s.drop intPart.length
  match rest with
  | [] => if intPart.isEmpty then none else some (digitsVal intPart)
  | c :: cs =>
    if c = '.' then
      let fracPart := cs.takeWhile Char.isDigit
      let rest2 := cs.drop fracPart.length
      if intPart.isEmpty ∧ fracPart.isEmpty then none
      else
        let base := digitsVal intPart + digitsVal fracPart / pow10 fracPart.length
        match rest2 with
        | [] => some base
        | e :: es =>
          if e = 'e' ∨ e = 'E' then
            match pyParseExp es with
            | some k => some (base * (10 : ℚ) ^ k)
            | none => none
          else none
    else if c = 'e' ∨ c = 'E' then
      if intPart.isEmpty then none
      else
        match pyParseExp cs with
        | some k => some (digitsVal intPart * (10 : ℚ) ^ k)
        | none => none
    else none

/-- Python `float(s)`: `none` models a raised `ValueError`. -/
def pyFloat? (s : List Char) : Option ℚ :=
  match lcTrim s with
  | [] => none
  | c :: cs =>
    if c = '+' then pyParseMantissa cs
    else if c = '-' then (pyParseMantissa cs).map Neg.neg
    else pyParseMantissa (c :: cs)

/-! ## String wrappers -/

def pyTrim (s : String) : String := ⟨lcTrim s.data⟩
def pyLower (s : String) : String := ⟨lcLower s.data⟩
def pyStartsWith (s pat : String) : Bool := lcStartsWith pat.data s.data
def pyEndsWith (s pat : String) : Bool := lcEndsWith pat.data s.data
def pyContains (pat s : String) : Bool := lcContains pat.data s.data
def pyReplace (s old new : String) : String := ⟨lcReplace old.data new.data s.data⟩
def pySplitOn (s : String) (sep : Char) : List String :=
  (lcSplitOn sep s.data).map fun p => ⟨p⟩
def pySplitWs (s : String) : List String := (lcSplitWs s.data).map fun p => ⟨p⟩
def pyFloatStr? (s : String) : Option ℚ := pyFloat? s.data
def pyIsDigits (s : String) : Bool := lcIsDigits s.data
def pyStrToNat (s : String) : Nat := lcToNat s.data

/-! ## Python dictionaries as insertion-ordered association lists -/

namespace Dict

def lookup (d : List (String × α)) (k : String) : Option α :=
  match d.find? fun kv => kv.1 = k with
  | some kv => some kv.2
  | none => none

/-- `d.get(k, 0)`. -/
def get0 (d : List (String × ℚ)) (k : String) : ℚ :=
  (lookup d k).getD 0

def member (d : List (String × α)) (k : String) : Bool :=
  (lookup d k).isSome

/-- `d[k] = v`: update in place if the key exists, else append. -/
def set (d : List (String × α)) (k : String) (v : α) : List (String × α) :=
  match d with
  | [] => [(k, v)]
  | (k', v') :: rest => if k' = k then (k, v) :: rest else (k', v') :: set rest k v

def keys (d : List (String × α)) : List String := d.map Prod.fst

def values (d : List (String × α)) : List α := d.map Prod.snd

end Dict

/-! ## Spreadsheet cells -/

/-- One spreadsheet cell: pandas `NaN`, a string, or a numeric value. -/
inductive Cell where
  | empty : Cell
  | str : String → Cell
  | num : ℚ → Cell
deriving DecidableEq

/-- pandas `pd.notna`. -/
def Cell.notna : Cell → Bool
  | .empty => false
  | _ => true

/-- Decimal rendering of a rational whose denominator divides `10^12`, used
for Python `str()` of numeric cells (only ever fed to substring checks in the
embedded code). -/
def ratDecimalStr (q : ℚ) : String :=
  let sign := if q < 0 then "-" else ""
  let q' := |q|
  if q'.den = 1 then sign ++ toString q'.num ++ ".0"
  else
    let scaled := q' * pow10 12
    if scaled.den = 1 then
      let n := scaled.num.toNat
      let ip := n / 10 ^ 12
      let fp := n % 10 ^ 12
      let fpStr := toString fp
      let pad := String.mk (List.replicate (12 - fpStr.length) '0')
      sign ++ toString ip ++ "." ++ pad ++ fpStr
    else sign ++ toString q'.num ++ "/" ++ toString q'.den

/-- Python `str(cell)` (`str(nan) = "nan"`). -/
def Cell.toStr : Cell → String
  | .empty => "nan"
  | .str s => s
  | .num q => ratDecimalStr q

/-- `str(row[i]).strip() if pd.notna(row[i]) else ""`, the idiom used
throughout the source for reading a cell as text. -/
def cellText (row : List Cell) (i : Nat) : String :=
  match row.getD i Cell.empty with
  | Cell.empty => ""
  | c => pyTrim c.toStr

/-- `pd.notna(row[i])` with out-of-range indices reading as `NaN`. -/
def cellNotna (row : List Cell) (i : Nat) : Bool :=
  (row.getD i Cell.empty).notna

/-- `float(cell)` on a raw cell: numbers pass through, strings go through
Python `float`, `NaN` fails (`float(nan)` is a float already, but the source
always guards with `pd.notna`). -/
def cellFloat? : Cell → Option ℚ
  | .empty => none
  | .str s => pyFloatStr? s
  | .num q => some q

/-! ## `pl_parser.py` — currency parsing -/

namespace PL

/-- `parse_currency` from `pl_parser.py`: total on all string inputs
(the `pd.isna` guard is vacuous for strings; the `"nan"` comparison is the
string one from the source). -/
def parse_currency (value : Cell) : ℚ :=
  if value.notna = false ∨ value.toStr = "" ∨ value.toStr = "nan" then 0
  else
    let val0 := pyTrim value.toStr
    if val0 = "" ∨ val0 = "-" ∨ val0 = "–" ∨ val0 = "—" then 0
    else
      let val1 : String :=
        ⟨(val0.data.filter fun c =>
            ¬ (c = '$' ∨ c = '€' ∨ c = '£' ∨ c = '¥' ∨ c = ',' ∨ c = ' '))⟩
      let val2 :=
        if pyStartsWith val1 "(" ∧ pyEndsWith val1 ")" then
          "-" ++ ⟨(val1.data.drop 1).dropLast⟩
        else val1
      match pyFloatStr? val2 with
      | some q => q
      | none => 0

end PL

/-! ## `pl_parser.py` — P&L-by-month statement model and parser -/

namespace PL

inductive PLSection where
  | income | cogs | grossProfit | expenses | netOperatingIncome
  | otherIncome | otherExpense | netOtherIncome | netIncome | unknown
deriving DecidableEq

/-- A single line item from the P&L (`PLLineItem` dataclass). -/
structure PLLineItem where
  name : String
  «section» : PLSection
  parent : Option String
  monthly_values : List (String × ℚ)
  total : ℚ
  is_total_row : Bool
  indent_level : Nat
deriving DecidableEq

/-- Parsed P&L statement (`PLStatement` dataclass); `company_name` and
`date_range` are display-only text captured as in the source. -/
structure PLStatement where
  company_name : String
  date_range : String
  months : List String
  line_items : List PLLineItem
  total_income : List (String × ℚ) := []
  total_cogs : List (String × ℚ) := []
  gross_profit : List (String × ℚ) := []
  total_expenses : List (String × ℚ) := []
  net_operating_income : List (String × ℚ) := []
  total_other_income : List (String × ℚ) := []
  total_other_expense : List (String × ℚ) := []
  net_income : List (String × ℚ) := []
deriving DecidableEq

/-- `detect_section` from `pl_parser.py`. -/
def detect_section (row_name : String) (current_section : PLSection) : PLSection :=
  let n := pyTrim (pyLower row_name)
  if n = "income" ∨ n = "revenue" then .income
  else if n = "cost of goods sold" ∨ n = "cost of sales" ∨ n = "cogs" then .cogs
  else if n = "gross profit" then .grossProfit
  else if n = "expenses" ∨ n = "operating expenses" then .expenses
  else if n = "net operating income" ∨ n = "operating income" then .netOperatingIncome
  else if n = "other income" then .otherIncome
  else if n = "other expense" ∨ n = "other expenses" ∨ n = "other costs" then .otherExpense
  else if n = "net other income" ∨ n = "total other income/expense" then .netOtherIncome
  else if n = "net income" then .netIncome
  else current_section

def monthNamesAndTotal : List String :=
  ["january", "february", "march", "april", "may", "june", "july", "august",
   "september", "october", "november", "december", "total"]

def monthAbbrevs : List String :=
  ["jan", "feb", "mar", "apr", "may", "jun", "jul", "aug", "sep", "oct", "nov", "dec"]

/-- Header-scanning loop of `parse_pl_csv` (rows 133–152 of the source):
returns `(company_name, date_range, header_row)`. -/
def findPLHeader : List (List Cell) → Nat → String → String → String × String × Nat
  | [], _, company, dateRange => (company, dateRange, 0)
  | row :: rest, i, company, dateRange =>
    let rowStr := cellText row 0
    let lower := pyLower rowStr
    if lower = "profit and loss" then
      findPLHeader rest (i + 1) company dateRange
    else if company = "" ∧ rowStr ≠ "" ∧ ¬ pyContains "january" lower
        ∧ ¬ pyContains "distribution" lower then
      findPLHeader rest (i + 1) rowStr dateRange
    else if pyContains "january" lower
        ∨ (pyContains "-" rowStr ∧ monthAbbrevs.any fun m => pyContains m lower) then
      findPLHeader rest (i + 1) company rowStr
    else if pyContains "distribution" lower ∨ pyContains "account" lower ∨ rowStr = "" then
      let has_months := (List.range' 1 (min 5 row.length - 1)).any fun j =>
        let cell := if cellNotna row j then pyLower (pyTrim (row.getD j Cell.empty).toStr) else ""
        monthNamesAndTotal.any fun m => pyContains m cell
      if has_months then (company, dateRange, i)
      else findPLHeader rest (i + 1) company dateRange
    else
      findPLHeader rest (i + 1) company dateRange

/-- Month-column extraction from the header row. -/
def plMonths (header : List Cell) : List String :=
  ((List.range' 1 (header.length - 1)).filterMap fun j =>
    let val := if cellNotna header j then pyTrim (header.getD j Cell.empty).toStr else ""
    if val ≠ "" ∧ pyLower val ≠ "nan" then some val else none)

/-- The fixed list of QBO summary-row names captured as source-of-truth
totals (`is_qbo_total` in the source). -/
def qboTotalNames : List String :=
  ["gross profit", "net operating income", "operating income", "net other income", "net income",
   "total for income", "total income", "total revenue",
   "total for cost of goods sold", "total cost of goods sold", "total cogs",
   "total for expenses", "total expenses", "total operating expenses",
   "total for other income", "total other income",
   "total for other expense", "total other expense", "total other expenses"]

/-- Mutable state of the data-row loop of `parse_pl_csv`. -/
structure PLParseState where
  current_section : PLSection := .unknown
  parent_stack : List (String × Nat) := []
  qbo_total_income : List (String × ℚ) := []
  qbo_total_cogs : List (String × ℚ) := []
  qbo_total_expenses : List (String × ℚ) := []
  qbo_gross_profit : List (String × ℚ) := []
  qbo_net_operating_income : List (String × ℚ) := []
  qbo_total_other_income : List (String × ℚ) := []
  qbo_total_other_expense : List (String × ℚ) := []
  qbo_net_income : List (String × ℚ) := []
  line_items : List PLLineItem := []

/-- `monthly_values` extraction shared by the QBO-row and line-item branches. -/
def rowMonthlyValues (months : List String) (row : List Cell) : List (String × ℚ) :=
  months.enum.foldl (fun acc (jm : Nat × String) =>
    if jm.1 + 1 < row.length then
      Dict.set acc jm.2 (parse_currency (row.getD (jm.1 + 1) Cell.empty))
    else acc) []

/-- The QBO-summary-row and line-item branches of the data-row loop
(the part after section detection and the accrual/cash skip). -/
def plProcessRow (months : List String) (st : PLParseState) (row : List Cell)
    (account_name : String) : PLParseState :=
  let name_lower := pyLower account_name
  if qboTotalNames.contains name_lower then
    let monthly_values := rowMonthlyValues months row
    if name_lower = "gross profit" then
      { st with qbo_gross_profit := monthly_values }
    else if name_lower = "net operating income" ∨ name_lower = "operating income" then
      { st with qbo_net_operating_income := monthly_values }
    else if name_lower = "net income" then
      { st with qbo_net_income := monthly_values }
    else if name_lower = "total for income" ∨ name_lower = "total income"
        ∨ name_lower = "total revenue" then
      { st with qbo_total_income := monthly_values }
    else if name_lower = "total for cost of goods sold"
        ∨ name_lower = "total cost of goods sold" ∨ name_lower = "total cogs" then
      { st with qbo_total_cogs := monthly_values }
    else if name_lower = "total for expenses" ∨ name_lower = "total expenses"
        ∨ name_lower = "total operating expenses" then
      { st with qbo_total_expenses := monthly_values }
    else if name_lower = "total for other income" ∨ name_lower = "total other income" then
      { st with qbo_total_other_income := monthly_values }
    else if name_lower = "total for other expense" ∨ name_lower = "total other expense"
        ∨ name_lower = "total other expenses" ∨ name_lower = "total for other expenses" then
      { st with qbo_total_other_expense := monthly_values }
    else st
  else
    let monthly_values := rowMonthlyValues months row
    let is_total := pyStartsWith (pyLower account_name) "total for "
      ∨ pyStartsWith (pyLower account_name) "total "
    let original_name := if cellNotna row 0 then (row.getD 0 Cell.empty).toStr else ""
    let leading_spaces := (original_name.data.takeWhile isPyWs).length
    let indent_level := if leading_spaces > 0 then leading_spaces / 2 else 0
    let parent : Option String :=
      if indent_level > 0 ∧ st.parent_stack ≠ [] then
        (st.parent_stack.reverse.find? fun p => p.2 < indent_level).map Prod.fst
      else none
    let parent_stack :=
      if ¬ is_total then
        (st.parent_stack.filter fun p => p.2 < indent_level) ++ [(account_name, indent_level)]
      else st.parent_stack
    let total_val := match months.getLast? with
      | some lastMonth => Dict.get0 monthly_values lastMonth
      | none => 0
    { st with
      parent_stack := parent_stack,
      line_items := st.line_items ++
        [{ name := account_name, «section» := st.current_section, parent := parent,
           monthly_values := monthly_values, total := total_val,
           is_total_row := is_total, indent_level := indent_level }] }

/-- One iteration of the data-row loop of `parse_pl_csv`. -/
def plStep (months : List String) (st : PLParseState) (row : List Cell) : PLParseState :=
  let account_name := cellText row 0
  if account_name = "" ∨ account_name = "nan" then st
  else
    let new_section := detect_section account_name st.current_section
    let cont : PLParseState → PLParseState := fun st' =>
      if pyContains "accrual basis" (pyLower account_name)
          ∨ pyContains "cash basis" (pyLower account_name) then st'
      else plProcessRow months st' row account_name
    if new_section ≠ st.current_section then
      let st' := { st with current_section := new_section }
      let has_values := (List.range' 1 (min row.length (months.length + 2) - 1)).any fun j =>
        cellNotna row j ∧ pyTrim (row.getD j Cell.empty).toStr ≠ ""
          ∧ pyTrim (row.getD j Cell.empty).toStr ≠ "nan"
      if ¬ has_values then st' else cont st'
    else cont st

/-- Per-section accumulators of `calculate_section_totals`. -/
structure SectionSums where
  income : List (String × ℚ)
  cogs : List (String × ℚ)
  expenses : List (String × ℚ)
  other_income : List (String × ℚ)
  other_expense : List (String × ℚ)
deriving DecidableEq

/-- `{m: 0 for m in all_months}`. -/
def zeroDict (ms : List String) : List (String × ℚ) :=
  ms.foldl (fun d m => Dict.set d m 0) []

/-- Add one line item's monthly values into the per-section sums
(total rows are skipped, as in the source). -/
def addItemValues (acc : SectionSums) (item : PLLineItem) : SectionSums :=
  if item.is_total_row then acc
  else
    item.monthly_values.foldl (fun a mv =>
      match item.«section» with
      | .income => { a with income := Dict.set a.income mv.1 (Dict.get0 a.income mv.1 + mv.2) }
      | .cogs => { a with cogs := Dict.set a.cogs mv.1 (Dict.get0 a.cogs mv.1 + mv.2) }
      | .expenses =>
        { a with expenses := Dict.set a.expenses mv.1 (Dict.get0 a.expenses mv.1 + mv.2) }
      | .otherIncome =>
        { a with other_income := Dict.set a.other_income mv.1 (Dict.get0 a.other_income mv.1 + mv.2) }
      | .otherExpense =>
        { a with other_expense := Dict.set a.other_expense mv.1 (Dict.get0 a.other_expense mv.1 + mv.2) }
      | _ => a) acc

/-- The `all_months` list of `calculate_section_totals`: the statement's
months with a trailing "Total" column normalized/appended. -/
def allMonthsOf (statement : PLStatement) : List String :=
  let months :=
    if statement.months ≠ [] ∧ pyLower (statement.months.getLastD "") = "total" then
      statement.months.dropLast
    else statement.months
  months ++ ["Total"]

/-- Gross-profit step of the derived-totals loop. -/
def fillGP (s : PLStatement) (month : String) : PLStatement :=
  if ¬ Dict.member s.gross_profit month then
    let v := Dict.get0 s.total_income month - Dict.get0 s.total_cogs month
    { s with gross_profit := Dict.set s.gross_profit month v }
  else s

/-- Net-operating-income step of the derived-totals loop (reads the
gross profit just filled for the same month). -/
def fillNOI (s : PLStatement) (month : String) : PLStatement :=
  if ¬ Dict.member s.net_operating_income month then
    let v := Dict.get0 s.gross_profit month - Dict.get0 s.total_expenses month
    { s with net_operating_income := Dict.set s.net_operating_income month v }
  else s

/-- Net-income step of the derived-totals loop. -/
def fillNI (s : PLStatement) (month : String) : PLStatement :=
  if ¬ Dict.member s.net_income month then
    let net_other := Dict.get0 s.total_other_income month - Dict.get0 s.total_other_expense month
    let v := Dict.get0 s.net_operating_income month + net_other
    { s with net_income := Dict.set s.net_income month v }
  else s

/-- The derived-totals loop body of `calculate_section_totals`: fill
`gross_profit`, `net_operating_income` and `net_income` for one month
when not already present. -/
def fillDerived (s : PLStatement) (month : String) : PLStatement :=
  fillNI (fillNOI (fillGP s month) month) month

/-- The fallback-aggregation half of `calculate_section_totals`: compute the
five section sums from the line items and install those not already provided
by QBO rows. -/
def applyCalculatedSums (statement : PLStatement) : PLStatement :=
  let all_months := allMonthsOf statement
  let has_qbo_income := statement.total_income ≠ []
  let has_qbo_cogs := statement.total_cogs ≠ []
  let has_qbo_expenses := statement.total_expenses ≠ []
  let has_qbo_other_income := statement.total_other_income ≠ []
  let has_qbo_other_expense := statement.total_other_expense ≠ []
  if ¬ has_qbo_income ∨ ¬ has_qbo_expenses then
    let init : SectionSums :=
      { income := zeroDict all_months, cogs := zeroDict all_months,
        expenses := zeroDict all_months, other_income := zeroDict all_months,
        other_expense := zeroDict all_months }
    let sums := statement.line_items.foldl addItemValues init
    let statement := if ¬ has_qbo_income then { statement with total_income := sums.income } else statement
    let statement := if ¬ has_qbo_cogs then { statement with total_cogs := sums.cogs } else statement
    let statement := if ¬ has_qbo_expenses then { statement with total_expenses := sums.expenses } else statement
    let statement := if ¬ has_qbo_other_income then { statement with total_other_income := sums.other_income } else statement
    if ¬ has_qbo_other_expense then { statement with total_other_expense := sums.other_expense } else statement
  else statement

/-- `calculate_section_totals` from `pl_parser.py`, as a pure function on the
statement it mutates: fallback aggregation, then the derived-totals loop over
the original statement's `all_months`. -/
def calculate_section_totals (statement : PLStatement) : PLStatement :=
  (allMonthsOf statement).foldl fillDerived (applyCalculatedSums statement)

/-- The three P&L identity violations reported by `validate_pl_totals`
(their display strings are not modelled). -/
inductive PLValidationError where
  | grossProfitMismatch
  | netOperatingIncomeMismatch
  | netIncomeMismatch
deriving DecidableEq

/-- `validate_pl_totals` from `pl_parser.py`: checks the three P&L identities
on the "Total" column only, within one cent, and returns the violations
without modifying the statement. -/
def validate_pl_totals (statement : PLStatement) : List PLValidationError :=
  if ¬ Dict.member statement.total_income "Total" then []
  else
    let income := Dict.get0 statement.total_income "Total"
    let cogs := Dict.get0 statement.total_cogs "Total"
    let gross_profit := Dict.get0 statement.gross_profit "Total"
    let expenses := Dict.get0 statement.total_expenses "Total"
    let net_op_income := Dict.get0 statement.net_operating_income "Total"
    let other_income := Dict.get0 statement.total_other_income "Total"
    let other_expense := Dict.get0 statement.total_other_expense "Total"
    let net_income := Dict.get0 statement.net_income "Total"
    let tol : ℚ := 0.01
    let errors := if |gross_profit - (income - cogs)| > tol then [PLValidationError.grossProfitMismatch] else []
    let errors := errors ++
      (if |net_op_income - (gross_profit - expenses)| > tol then [PLValidationError.netOperatingIncomeMismatch] else [])
    errors ++
      (if |net_income - (net_op_income + other_income - other_expense)| > tol then [PLValidationError.netIncomeMismatch] else [])

/-- `parse_pl_csv` from `pl_parser.py`, over an in-memory table of cells
(the CSV read itself is outside the model). -/
def parse_pl_csv (table : List (List Cell)) : PLStatement :=
  let hdr := findPLHeader table 0 "" ""
  let header_row := hdr.2.2
  let months := plMonths (table.getD header_row [])
  let final := (table.drop (header_row + 1)).foldl (plStep months) {}
  let statement : PLStatement :=
    { company_name := hdr.1, date_range := hdr.2.1, months := months,
      line_items := final.line_items }
  let statement := if final.qbo_total_income ≠ [] then
    { statement with total_income := final.qbo_total_income } else statement
  let statement := if final.qbo_total_cogs ≠ [] then
    { statement with total_cogs := final.qbo_total_cogs } else statement
  let statement := if final.qbo_total_expenses ≠ [] then
    { statement with total_expenses := final.qbo_total_expenses } else statement
  let statement := if final.qbo_total_other_income ≠ [] then
    { statement with total_other_income := final.qbo_total_other_income } else statement
  let statement := if final.qbo_total_other_expense ≠ [] then
    { statement with total_other_expense := final.qbo_total_other_expense } else statement
  let statement := if final.qbo_gross_profit ≠ [] then
    { statement with gross_profit := final.qbo_gross_profit } else statement
  let statement := if final.qbo_net_operating_income ≠ [] then
    { statement with net_operating_income := final.qbo_net_operating_income } else statement
  let statement := if final.qbo_net_income ≠ [] then
    { statement with net_income := final.qbo_net_income } else statement
  calculate_section_totals statement

end PL

/-! ## `gl_analyzer.py` / `coa_parser.py` — ledger data model and parser -/

namespace GLA

/-- `AccountType` enum from `coa_parser.py`. -/
inductive AccountType where
  | asset | liability | equity | revenue | cogs | expense
  | otherIncome | otherExpense | unknown
deriving DecidableEq

/-- `Transaction` dataclass from `gl_analyzer.py`. -/
structure Transaction where
  date : String
  account : String
  account_type : AccountType
  description : String
  amount : ℚ
  vendor : String := ""
deriving DecidableEq

/-- `AccountSummary` dataclass from `gl_analyzer.py`. -/
structure AccountSummary where
  name : String
  account_type : AccountType
  total : ℚ
  transaction_count : Nat
  transactions : List Transaction
deriving DecidableEq

/-- Scanning loop of `detect_date_format`: rows are paired with their
positional index; the first five rows are skipped. -/
def detectDateAux (date_col : Nat) : List (Nat × List Cell) → Bool
  | [] => false
  | (i, row) :: rest =>
    if i < 5 then detectDateAux date_col rest
    else if cellNotna row date_col then
      let date_str := pyTrim (row.getD date_col Cell.empty).toStr
      if pyContains "/" date_str then
        let parts := pySplitOn date_str '/'
        if parts.length ≥ 2 then
          let first_num := if pyIsDigits (parts.getD 0 "") then pyStrToNat (parts.getD 0 "") else 0
          if first_num > 12 then true else detectDateAux date_col rest
        else detectDateAux date_col rest
      else detectDateAux date_col rest
    else detectDateAux date_col rest

/-- `detect_date_format` from `gl_analyzer.py`: `true` means day-first
(DD/MM/YYYY) was detected, `false` defaults to month-first. -/
def detect_date_format (df : List (List Cell)) (date_col : Nat := 1) : Bool :=
  detectDateAux date_col df.enum

/-- The date-format resolution of `parse_gl_with_mapping` (its `date_format`
parameter: "auto" | "mdy" | "dmy"). -/
def resolveDayfirst (date_format : String) (df : List (List Cell)) : Bool :=
  if date_format = "dmy" then true
  else if date_format = "mdy" then false
  else detect_date_format df

/-- `' '.join(str(v).lower() for v in row.values if pd.notna(v))`. -/
def rowJoinedLower (row : List Cell) : String :=
  String.intercalate " " (row.filterMap fun c => if c.notna then some (pyLower c.toStr) else none)

/-- Python truthiness of an optional column index (`if col and ...`):
`None` and `0` are falsy. -/
def colTruthy (o : Option Nat) : Bool := o.getD 0 ≠ 0

/-- `find_col` from `parse_gl_with_mapping`: first matching header column by
substring, outer loop over candidate names. -/
def find_col (header_cols : List (String × Nat)) (names : List String)
    (dflt : Option Nat) : Option Nat :=
  match names.findSome? (fun name =>
    header_cols.findSome? fun kv => if pyContains name kv.1 then some kv.2 else none) with
  | some idx => some idx
  | none => dflt

/-- Header-row search of `parse_gl_with_mapping`: finds the first row whose
joined lower-cased text contains "date" and one of "type" / "transaction" /
"amount", returning its index and the column-name map; defaults to row 3
with an empty map. -/
def glFindHeader : List (Nat × List Cell) → Nat × List (String × Nat)
  | [] => (3, [])
  | (i, row) :: rest =>
    let row_str := rowJoinedLower row
    if pyContains "date" row_str ∧ (pyContains "type" row_str
        ∨ pyContains "transaction" row_str ∨ pyContains "amount" row_str) then
      (i, row.enum.foldl (fun d jv =>
        if jv.2.notna then Dict.set d (pyLower (pyTrim jv.2.toStr)) jv.1 else d) [])
    else glFindHeader rest

/-- `re.sub(r'^\d+[\s\-]+', '', name).strip()`: strip a leading numeric
account-code prefix. -/
def stripAccountCode (name : String) : String :=
  let cs := name.data
  let ds := cs.takeWhile Char.isDigit
  let rest := cs.drop ds.length
  let ws := rest.takeWhile fun c => isPyWs c ∨ c = '-'
  if ds ≠ [] ∧ ws ≠ [] then pyTrim ⟨rest.drop ws.length⟩ else name

/-- Simplified `pd.to_datetime` for slash-separated numeric dates: interprets
per `dayfirst`, swapping day and month when the chosen month is impossible
(as pandas does); other shapes are treated as unparseable, which routes the
source's `except` branch to preserving the original string.  Native
date-typed and numeric cells are not modelled. -/
def pdToDatetime (dayfirst : Bool) (s : String) : Option (Nat × Nat × Nat) :=
  let parts := pySplitOn (pyTrim s) '/'
  match parts with
  | [a, b, c] =>
    if pyIsDigits a ∧ pyIsDigits b ∧ pyIsDigits c ∧ c.length = 4 then
      let x := pyStrToNat a
      let y := pyStrToNat b
      let yr := pyStrToNat c
      let md := if dayfirst then (y, x) else (x, y)
      let md := if md.1 > 12 ∧ md.2 ≤ 12 then (md.2, md.1) else md
      if 1 ≤ md.1 ∧ md.1 ≤ 12 ∧ 1 ≤ md.2 ∧ md.2 ≤ 31 then some (yr, md.1, md.2)
      else none
    else none
  | _ => none

def pad2 (n : Nat) : String := if n < 10 then "0" ++ toString n else toString n

/-- `%Y-%m-%d` normalization of a parsed date, with the source's fallback to
the original string (stripped) when parsing fails. -/
def normalizeDate (dayfirst : Bool) (date_val : Cell) : String :=
  match date_val with
  | Cell.str s =>
    match pdToDatetime dayfirst s with
    | some ymd => toString ymd.1 ++ "-" ++ pad2 ymd.2.1 ++ "-" ++ pad2 ymd.2.2
    | none => pyTrim s
  | c => pyTrim c.toStr

/-- `val.replace(',', '').replace('$', '').replace('(', '-').replace(')', '')`
applied to a string cell; numeric cells pass straight to `float`. -/
def cleanedAmount? (c : Cell) : Option ℚ :=
  match c with
  | Cell.num q => some q
  | Cell.str s =>
    pyFloatStr? ⟨(s.data.filter fun ch => ¬ (ch = ',' ∨ ch = '$' ∨ ch = ')')).map
      fun ch => if ch = '(' then '-' else ch⟩
  | Cell.empty => none

/-- Same cleaning for debit/credit cells (no parenthesis handling in the
source there), with Python's `float(val) if val else 0` truthiness. -/
def debitCredit? (c : Cell) : Option ℚ :=
  match c with
  | Cell.num q => some q
  | Cell.str s =>
    let cleaned : String := ⟨s.data.filter fun ch => ¬ (ch = ',' ∨ ch = '$')⟩
    if cleaned = "" then some 0 else pyFloatStr? cleaned
  | Cell.empty => none

end GLA

namespace GLA

/-- Detected column layout of `parse_gl_with_mapping`. -/
structure GLCols where
  date_col : Option Nat
  vendor_col : Option Nat
  desc_col : Option Nat
  amount_col : Option Nat
  debit_col : Option Nat
  credit_col : Option Nat

/-- Mutable state of the row loop of `parse_gl_with_mapping`. -/
structure GLParseState where
  accounts : List (String × AccountSummary) := []
  all_transactions : List Transaction := []
  current_account : Option String := none
  current_account_type : AccountType := .unknown
  parent_account_stack : List String := []

/-- "Total for X" handling: pop the matching parent from the stack. -/
def popParentStack (ps : List String) (total_name : String) : List String :=
  let lname := pyLower total_name
  if ps ≠ [] ∧ pyLower (ps.getLastD "") = lname then ps.dropLast
  else if ps ≠ [] then
    match ps.reverse.enum.find? (fun ip => pyLower ip.2 = lname) with
    | some ip => ps.take (ps.length - ip.1 - 1)
    | none => ps
  else ps

/-- The account-type fallback chain of `parse_gl_with_mapping` (exact map
lookup, stripped numeric prefix, `Parent:Child` suffix matches, and
stripped-name suffix matches). -/
def resolveAccountType (account_map : List (String × AccountType))
    (current_account : String) : AccountType :=
  let t0 := (Dict.lookup account_map current_account).getD .unknown
  if t0 ≠ .unknown then t0
  else
    let stripped_name := stripAccountCode current_account
    let t1 :=
      if stripped_name ≠ "" ∧ stripped_name ≠ current_account then
        (Dict.lookup account_map stripped_name).getD .unknown
      else .unknown
    if t1 ≠ .unknown then t1
    else
      match account_map.findSome? (fun mv =>
        if pyEndsWith mv.1 (":" ++ current_account) ∨ mv.1 = current_account then some mv.2
        else none) with
      | some t => t
      | none =>
        match account_map.findSome? (fun mv =>
          if pyEndsWith (pyLower mv.1) (":" ++ pyLower current_account) then some mv.2
          else none) with
        | some t => t
        | none =>
          if stripped_name ≠ "" then
            match account_map.findSome? (fun mv =>
              if pyEndsWith mv.1 (":" ++ stripped_name) ∨ mv.1 = stripped_name then some mv.2
              else if pyEndsWith (pyLower mv.1) (":" ++ pyLower stripped_name) then some mv.2
              else none) with
            | some t => t
            | none => .unknown
          else .unknown

/-- `Parent:Sub` resolution of an account-header name against the parent
stack (`for depth in range(len(stack), 0, -1)`). -/
def resolveFullName (account_map : List (String × AccountType))
    (stack : List String) (raw : String) : String :=
  if stack ≠ [] then
    match (List.range' 1 stack.length).reverse.findSome? (fun depth =>
      let test := String.intercalate ":" (stack.take depth) ++ ":" ++ raw
      if Dict.member account_map test then some test else none) with
    | some t => t
    | none => raw
  else raw

/-- Rightmost-columns numeric scan (amount strategy 3). -/
def scanAmount (row : List Cell) : ℚ :=
  let n := row.length
  let lower := max 0 (n - 4)
  let idxs := (List.range' (lower + 1) (n - 1 - lower)).reverse
  (idxs.findSome? fun i =>
    if cellNotna row i then
      match cleanedAmount? (row.getD i Cell.empty) with
      | some v => if v ≠ 0 then some v else none
      | none => none
    else none).getD 0

/-- Amount extraction of `parse_gl_with_mapping` (strategy 1: detected amount
column; strategy 2: debit − credit; strategy 3: rightmost scan; a parse
failure is caught by the source's `except` and leaves 0). -/
def extractAmount (cols : GLCols) (row : List Cell) : ℚ :=
  if colTruthy cols.amount_col ∧ row.length > cols.amount_col.getD 0
      ∧ cellNotna row (cols.amount_col.getD 0) then
    (cleanedAmount? (row.getD (cols.amount_col.getD 0) Cell.empty)).getD 0
  else if cols.debit_col ≠ none ∨ cols.credit_col ≠ none then
    let debit? : Option ℚ :=
      if colTruthy cols.debit_col ∧ row.length > cols.debit_col.getD 0
          ∧ cellNotna row (cols.debit_col.getD 0) then
        debitCredit? (row.getD (cols.debit_col.getD 0) Cell.empty)
      else some 0
    let credit? : Option ℚ :=
      if colTruthy cols.credit_col ∧ row.length > cols.credit_col.getD 0
          ∧ cellNotna row (cols.credit_col.getD 0) then
        debitCredit? (row.getD (cols.credit_col.getD 0) Cell.empty)
      else some 0
    match debit?, credit? with
    | some d, some c => d - c
    | _, _ => 0
  else scanAmount row

/-- One iteration of the row loop of `parse_gl_with_mapping`. -/
def glStep (account_map : List (String × AccountType)) (cols : GLCols)
    (dayfirst : Bool) (st : GLParseState) (row : List Cell) : GLParseState :=
  let col0 := let t := cellText row 0; if t = "nan" then "" else t
  let col1 := let t := cellText row 1; if t = "nan" then "" else t
  if col0 = "" ∧ col1 = "" then st
  else if pyStartsWith col0 "Total for " then
    let total_name := pyTrim (pyReplace (pyReplace col0 "Total for " "") " with sub-accounts" "")
    { st with parent_account_stack := popParentStack st.parent_account_stack total_name }
  else if col0 ≠ "" ∧ (¬ cellNotna row 1 ∨ col1 = "" ∨ col1 = "Beginning Balance")
      ∧ ¬ pyStartsWith col0 "Total" then
    let raw_account_name := pyTrim col0
    let full_account_name := resolveFullName account_map st.parent_account_stack raw_account_name
    let current_account_type := resolveAccountType account_map full_account_name
    let accounts :=
      if ¬ Dict.member st.accounts full_account_name then
        Dict.set st.accounts full_account_name
          { name := full_account_name, account_type := current_account_type,
            total := 0, transaction_count := 0, transactions := [] }
      else st.accounts
    let has_children := account_map.any fun mv => pyStartsWith mv.1 (raw_account_name ++ ":")
    let parent_account_stack :=
      if has_children then [raw_account_name]
      else if st.parent_account_stack = []
          ∨ ¬ (account_map.any fun mv =>
                pyStartsWith mv.1 (st.parent_account_stack.headD "" ++ ":" ++ raw_account_name)) then
        []
      else st.parent_account_stack
    { st with
        accounts := accounts,
        current_account := some full_account_name,
        current_account_type := current_account_type,
        parent_account_stack := parent_account_stack }
  else if pyStartsWith col0 "Total " then st
  else if st.current_account.isSome ∧ col1 ≠ "" ∧ col1 ≠ "nan" ∧ col1 ≠ "Beginning Balance" then
    let current := st.current_account.getD ""
    let date_val :=
      if colTruthy cols.date_col ∧ row.length > cols.date_col.getD 0 then
        row.getD (cols.date_col.getD 0) Cell.empty
      else row.getD 1 Cell.empty
    let date := if date_val.notna then normalizeDate dayfirst date_val else ""
    let vendor :=
      if colTruthy cols.vendor_col ∧ row.length > cols.vendor_col.getD 0
          ∧ cellNotna row (cols.vendor_col.getD 0) then
        let v := pyTrim (row.getD (cols.vendor_col.getD 0) Cell.empty).toStr
        if v = "nan" then "" else v
      else ""
    let description :=
      if colTruthy cols.desc_col ∧ row.length > cols.desc_col.getD 0
          ∧ cellNotna row (cols.desc_col.getD 0) then
        let v := pyTrim (row.getD (cols.desc_col.getD 0) Cell.empty).toStr
        if v = "nan" then "" else v
      else ""
    let amount := extractAmount cols row
    if date ≠ "" ∧ date ≠ "nan" then
      let txn : Transaction :=
        { date := date, account := current, account_type := st.current_account_type,
          description := description, amount := amount, vendor := vendor }
      let accounts :=
        match Dict.lookup st.accounts current with
        | some acc =>
          Dict.set st.accounts current
            { acc with
                transactions := acc.transactions ++ [txn],
                transaction_count := acc.transaction_count + 1 }
        | none => st.accounts
      { st with all_transactions := st.all_transactions ++ [txn], accounts := accounts }
    else st
  else st

/-- `parse_gl_with_mapping` from `gl_analyzer.py`, over an in-memory table
(sheet selection by `find_gl_sheet` is outside the model).  Totals are
recomputed from transactions in the final step, as in the source. -/
def parse_gl_with_mapping (table : List (List Cell))
    (account_map : List (String × AccountType)) (date_format : String := "auto") :
    List (String × AccountSummary) × List Transaction :=
  let dayfirst := resolveDayfirst date_format table
  let hdr := glFindHeader table.enum
  let header_cols := hdr.2
  let cols : GLCols :=
    { date_col := find_col header_cols ["date"] (some 1),
      vendor_col := find_col header_cols ["name", "vendor", "payee", "customer"] (some 5),
      desc_col := find_col header_cols ["memo", "description", "desc"] (some 6),
      amount_col := find_col header_cols ["amount"] (some 8),
      debit_col := find_col header_cols ["debit"] none,
      credit_col := find_col header_cols ["credit"] none }
  let st := (table.drop (hdr.1 + 1)).foldl (glStep account_map cols dayfirst) {}
  let accounts := st.accounts.map fun na =>
    (na.1, { na.2 with total := (na.2.transactions.map Transaction.amount).sum })
  (accounts, st.all_transactions)

end GLA

/-! ## `expense_analyzer.py` — variance classifier and QBO GL parser -/

namespace EA

open GLA

/-- `CV_CONSISTENT_THRESHOLD` (module constant, `0.15`). -/
def CV_CONSISTENT_THRESHOLD : ℚ := 0.15

/-- `CV_VOLATILE_THRESHOLD` (module constant, `0.50`). -/
def CV_VOLATILE_THRESHOLD : ℚ := 0.50

/-- `EXPENSE_CLASSIFICATIONS` from `expense_analyzer.py`, in source order:
`(keyword, fixed, discretionary, consistent)`. -/
def EXPENSE_CLASSIFICATIONS : List (String × Bool × Bool × Bool) :=
  [("rent", true, false, true), ("lease", true, false, true),
   ("insurance", true, false, true), ("depreciation", true, false, true),
   ("amortization", true, false, true), ("salary", true, false, true),
   ("wages", true, false, false), ("payroll", true, false, false),
   ("benefits", true, false, true), ("health", true, false, true),
   ("license", true, false, true), ("permit", true, false, true),
   ("interest", true, false, true),
   ("utilities", false, false, false), ("telephone", false, false, true),
   ("internet", false, false, true), ("bank", false, false, false),
   ("merchant", false, false, false), ("processing", false, false, false),
   ("accounting", false, false, true), ("bookkeeping", false, false, true),
   ("legal", false, false, false), ("professional", false, false, false),
   ("advertising", false, true, false), ("marketing", false, true, false),
   ("promotion", false, true, false), ("travel", false, true, false),
   ("entertainment", false, true, false), ("meals", false, true, false),
   ("office supplies", false, true, false), ("supplies", false, true, false),
   ("training", false, true, false), ("education", false, true, false),
   ("subscriptions", false, true, true), ("software", false, true, true),
   ("dues", false, true, true), ("membership", false, true, true),
   ("donations", false, true, false), ("gifts", false, true, false),
   ("shipping", false, false, false), ("freight", false, false, false),
   ("postage", false, false, false)]

/-- `classify_expense`: first keyword of the table contained in the
lower-cased account name wins; default `(False, True, False)`.
Returns `(is_fixed, is_discretionary, consistency_expected)`. -/
def classify_expense (account_name : String) : Bool × Bool × Bool :=
  let name_lower := pyLower account_name
  match EXPENSE_CLASSIFICATIONS.findSome? (fun kc =>
    if pyContains kc.1 name_lower then some kc.2 else none) with
  | some c => c
  | none => (false, true, false)

/-- Result of `calculate_variance_stats`; `var` is the square of the source's
`std_dev` and `cv_sq` the square of its `cv` (see the header note on squared
representation). -/
structure VarStats where
  mean : ℚ
  var : ℚ
  cv_sq : ℚ
  is_consistent : Bool
deriving DecidableEq

/-- `statistics.stdev` squared: sample variance over a list with its mean. -/
def sampleVar (l : List ℚ) (mean : ℚ) : ℚ :=
  (l.map fun v => (v - mean) ^ 2).sum / ((l.length : ℚ) - 1)

/-- `calculate_variance_stats` from `expense_analyzer.py`: mean, sample
standard deviation (squared) and CV (squared) over the strictly positive
monthly values; degenerate inputs yield `(0, 0, 0, True)`. -/
def calculate_variance_stats (monthly_amounts : List (String × ℚ)) : VarStats :=
  if monthly_amounts.length < 2 then ⟨0, 0, 0, true⟩
  else
    let values := Dict.values monthly_amounts
    let non_zero := values.filter fun v => v > 0
    if non_zero.length < 2 then ⟨0, 0, 0, true⟩
    else
      let mean := non_zero.sum / (non_zero.length : ℚ)
      if mean = 0 then ⟨0, 0, 0, true⟩
      else
        let var := sampleVar non_zero mean
        let cv_sq := var / mean ^ 2
        ⟨mean, var, cv_sq, decide (cv_sq < CV_CONSISTENT_THRESHOLD ^ 2)⟩

/-- `ExpenseCategory` dataclass (display-only `notes` omitted; `monthly_var`
and `cv_sq` are the squares of the source's `monthly_std` and
`coefficient_of_variation`). -/
structure ExpenseCategory where
  name : String
  total : ℚ
  pct_of_total_expenses : ℚ
  pct_of_revenue : ℚ
  transaction_count : Nat
  avg_transaction : ℚ
  top_vendors : List (String × ℚ) := []
  monthly_trend : List (String × ℚ) := []
  is_fixed : Bool := false
  is_discretionary : Bool := true
  monthly_avg : ℚ := 0
  monthly_var : ℚ := 0
  cv_sq : ℚ := 0
  is_consistent : Bool := true
  consistency_expected : Bool := false
  has_anomaly : Bool := false
deriving DecidableEq

/-- Stable insertion placing `x` after existing entries it does not strictly
precede; folding over a list yields Python's stable `sort`/`sorted`. -/
def insertBy (lt : α → α → Bool) (x : α) : List α → List α
  | [] => [x]
  | y :: ys => if lt x y then x :: y :: ys else y :: insertBy lt x ys

/-- Python's stable sort with a strict "comes before" test. -/
def pySortBy (lt : α → α → Bool) (l : List α) : List α :=
  l.foldl (fun acc x => insertBy lt x acc) []

/-- Vendor normalization: `txn.vendor.strip() or "Unknown"`, with the
source's `("", "nan", "None")` check. -/
def vendorName (txn : Transaction) : String :=
  let v := if txn.vendor ≠ "" then pyTrim txn.vendor else "Unknown"
  if v = "" ∨ v = "nan" ∨ v = "None" then "Unknown" else v

/-- Month key of a transaction date (`parts[0] + "/" + parts[2]` for slashed
dates, else the first seven characters); `none` models the source's
`except: pass` on short slashed dates. -/
def monthKey (date : String) : Option String :=
  if pyContains "/" date then
    match pySplitOn date '/' with
    | a :: _ :: c :: _ => some (a ++ "/" ++ c)
    | _ => none
  else some ⟨date.data.take 7⟩

/-- Monthly trend accumulation (`monthly[month_key] += abs(txn.amount)`). -/
def monthlyTrend (txns : List Transaction) : List (String × ℚ) :=
  txns.foldl (fun d txn =>
    match monthKey txn.date with
    | some k => Dict.set d k (Dict.get0 d k + |txn.amount|)
    | none => d) []

/-- Per-vendor totals accumulation for one category. -/
def vendorTotals (txns : List Transaction) : List (String × ℚ) :=
  txns.foldl (fun d txn =>
    let v := vendorName txn
    Dict.set d v (Dict.get0 d v + |txn.amount|)) []

/-- The sort key of `analyze_expense_categories`
(`(-int(has_anomaly), -cv if not is_consistent else 0, -total)`), with `-cv`
represented by `-cv_sq` (order-equivalent: `cv ≥ 0` always, and squaring is
strictly monotone on non-negatives). -/
def catKey (c : ExpenseCategory) : ℚ × ℚ × ℚ :=
  ((if c.has_anomaly then -1 else 0),
   (if ¬ c.is_consistent then -c.cv_sq else 0),
   -c.total)

/-- Strict lexicographic comparison of sort keys. -/
def keyLt (a b : ℚ × ℚ × ℚ) : Bool :=
  a.1 < b.1 ∨ (a.1 = b.1 ∧ (a.2.1 < b.2.1 ∨ (a.2.1 = b.2.1 ∧ a.2.2 < b.2.2)))

/-- Its reflexive companion (used to state sortedness). -/
def keyLe (a b : ℚ × ℚ × ℚ) : Bool := ¬ keyLt b a

/-- One category record of `analyze_expense_categories` (the loop body for
one expense account). -/
def buildCategory (txns_by_account : List (String × List Transaction))
    (total_expenses total_revenue : ℚ) (name : String) (account : AccountSummary) :
    ExpenseCategory :=
  let account_txns := (Dict.lookup txns_by_account name).getD []
  let pct_of_expenses := if total_expenses ≠ 0 then |account.total| / total_expenses * 100 else 0
  let pct_of_revenue := if total_revenue ≠ 0 then |account.total| / total_revenue * 100 else 0
  let avg_txn :=
    if account_txns ≠ [] then |account.total| / (account_txns.length : ℚ) else |account.total|
  let cls := classify_expense name
  let top_vendors := (pySortBy (fun a b => a.2 > b.2) (vendorTotals account_txns)).take 5
  let monthly := monthlyTrend account_txns
  let stats := calculate_variance_stats monthly
  let has_anomaly := cls.2.2 ∧ ¬ stats.is_consistent
    ∧ stats.cv_sq > CV_CONSISTENT_THRESHOLD ^ 2
  { name := name, total := |account.total|,
    pct_of_total_expenses := pct_of_expenses, pct_of_revenue := pct_of_revenue,
    transaction_count := account_txns.length, avg_transaction := avg_txn,
    top_vendors := top_vendors, monthly_trend := monthly,
    is_fixed := cls.1, is_discretionary := cls.2.1,
    monthly_avg := stats.mean, monthly_var := stats.var, cv_sq := stats.cv_sq,
    is_consistent := stats.is_consistent, consistency_expected := cls.2.2,
    has_anomaly := has_anomaly }

/-- `analyze_expense_categories` from `expense_analyzer.py`. -/
def analyze_expense_categories (accounts : List (String × AccountSummary))
    (transactions : List Transaction) (total_revenue : ℚ) : List ExpenseCategory :=
  let total_expenses :=
    ((Dict.values accounts).filterMap fun acc =>
      if acc.account_type = .expense then some |acc.total| else none).sum
  let txns_by_account := transactions.foldl (fun d txn =>
    Dict.set d txn.account ((Dict.lookup d txn.account).getD [] ++ [txn])) []
  let categories := accounts.foldl (fun cats na =>
    if na.2.account_type ≠ .expense then cats
    else if |na.2.total| < 0.01 then cats
    else cats ++ [buildCategory txns_by_account total_expenses total_revenue na.1 na.2]) []
  pySortBy (fun a b => keyLt (catKey a) (catKey b)) categories

end EA

namespace EA

open GLA

/-- Header-row search of `parse_qbo_gl`: first row whose joined cell text
(case-sensitive) contains "Date" and "Transaction"; defaults to row 4. -/
def qboFindHeader : List (Nat × List Cell) → Nat
  | [] => 4
  | (i, row) :: rest =>
    let row_str := String.intercalate " "
      (row.filterMap fun c => if c.notna then some c.toStr else none)
    if pyContains "Date" row_str ∧ pyContains "Transaction" row_str then i
    else qboFindHeader rest

/-- "Total for X" balance extraction of `parse_qbo_gl`: columns 9, 8, then
the last, first parseable value wins (`float` failures fall through, as does
the out-of-range `row[-1]` of an empty row). -/
def qboBalance (row : List Cell) : Option ℚ :=
  [(9 : Int), 8, -1].findSome? fun c =>
    let idx : Int := if c ≥ 0 then c else (row.length : Int) + c
    if 0 ≤ idx ∧ idx < (row.length : Int) then
      let i := idx.toNat
      if cellNotna row i then cellFloat? (row.getD i Cell.empty) else none
    else none

/-- The account-type fallback chain of `parse_qbo_gl` (distinct from
`parse_gl_with_mapping`'s): suffix match, case-insensitive suffix match,
then path-segment match. -/
def qboResolveType (account_map : List (String × AccountType))
    (current_account : String) : AccountType :=
  let t0 := (Dict.lookup account_map current_account).getD .unknown
  if t0 ≠ .unknown then t0
  else
    match account_map.findSome? (fun mv =>
      if pyEndsWith mv.1 (":" ++ current_account) ∨ mv.1 = current_account then some mv.2
      else none) with
    | some t => t
    | none =>
      match account_map.findSome? (fun mv =>
        if pyEndsWith (pyLower mv.1) (":" ++ pyLower current_account) then some mv.2
        else none) with
      | some t => t
      | none =>
        match account_map.findSome? (fun mv =>
          let segments := pySplitOn mv.1 ':'
          if segments.contains current_account
              ∨ (segments.map pyLower).contains (pyLower current_account) then some mv.2
          else none) with
        | some t => t
        | none => .unknown

/-- Mutable state of the row loop of `parse_qbo_gl`. -/
structure QboState where
  accounts : List (String × AccountSummary) := []
  all_transactions : List Transaction := []
  current_account : Option String := none
  current_account_type : AccountType := .unknown

/-- One iteration of the row loop of `parse_qbo_gl`.  Note that transaction
amounts are never summed into the account totals: a "Total for X" row
overwrites the account's `total` with the file's own balance. -/
def qboStep (account_map : List (String × AccountType)) (st : QboState)
    (row : List Cell) : QboState :=
  let col0 := let t := cellText row 0; if t = "nan" then "" else t
  let col1 := let t := cellText row 1; if t = "nan" then "" else t
  if col0 = "" ∧ col1 = "" then st
  else if pyStartsWith col0 "Total for " then
    let account_name := pyTrim (pyReplace col0 "Total for " "")
    if pyContains " with sub-accounts" account_name then st
    else if Dict.member st.accounts account_name then
      match qboBalance row with
      | some balance =>
        match Dict.lookup st.accounts account_name with
        | some acc =>
          { st with accounts := Dict.set st.accounts account_name { acc with total := balance } }
        | none => st
      | none => st
    else st
  else if col0 ≠ "" ∧ ¬ pyStartsWith col0 "Total"
      ∧ (¬ cellNotna row 1 ∨ col1 = "" ∨ col1 = "Beginning Balance") then
    let current_account := col0
    let current_account_type := qboResolveType account_map current_account
    let accounts :=
      if ¬ Dict.member st.accounts current_account then
        Dict.set st.accounts current_account
          { name := current_account, account_type := current_account_type,
            total := 0, transaction_count := 0, transactions := [] }
      else st.accounts
    { st with
        accounts := accounts,
        current_account := some current_account,
        current_account_type := current_account_type }
  else if st.current_account.isSome ∧ col1 ≠ "" ∧ col1 ≠ "Beginning Balance" then
    let current := st.current_account.getD ""
    let date_str := col1
    let vendor :=
      if row.length > 5 ∧ cellNotna row 5 then
        let v := pyTrim (row.getD 5 Cell.empty).toStr
        if v = "nan" then "" else v
      else ""
    let description :=
      if row.length > 6 ∧ cellNotna row 6 then
        let v := pyTrim (row.getD 6 Cell.empty).toStr
        if v = "nan" then "" else v
      else ""
    let amount :=
      (if row.length > 8 ∧ cellNotna row 8 then cellFloat? (row.getD 8 Cell.empty)
       else none).getD 0
    let txn : Transaction :=
      { date := date_str, account := current, account_type := st.current_account_type,
        description := description, amount := amount, vendor := vendor }
    let accounts :=
      match Dict.lookup st.accounts current with
      | some acc =>
        Dict.set st.accounts current
          { acc with
              transactions := acc.transactions ++ [txn],
              transaction_count := acc.transaction_count + 1 }
      | none => st.accounts
    { st with all_transactions := st.all_transactions ++ [txn], accounts := accounts }
  else st

/-- `parse_qbo_gl` from `expense_analyzer.py`, over an in-memory table.
Unlike `parse_gl_with_mapping`, the returned totals come from the file's
"Total for X" rows (or remain 0), never from summing transactions. -/
def parse_qbo_gl (table : List (List Cell))
    (account_map : List (String × AccountType)) :
    List (String × AccountSummary) × List Transaction :=
  let header_row := qboFindHeader table.enum
  let st := ((table.enum.filter fun ir => ir.1 > header_row).map Prod.snd).foldl
    (qboStep account_map) {}
  (st.accounts, st.all_transactions)

end EA

/-! ## `validation.py` — GL total validation -/

namespace V

open GLA

/-- One reported discrepancy of `validate_gl_parsing` (the `issue` text is
the source's tag string). -/
structure Discrepancy where
  account : String
  matched_as : Option String
  expected : ℚ
  actual : ℚ
  variance : ℚ
  pct_variance : ℚ
  issue : String
deriving DecidableEq

/-- `ValidationResult` dataclass (display-only `summary` omitted; the single
possible warning string is kept verbatim). -/
structure ValidationResult where
  passed : Bool
  total_discrepancies : Nat
  discrepancies : List Discrepancy
  missing_accounts : List String
  warnings : List String
deriving DecidableEq

/-- Header-row search of `extract_gl_totals` (lower-cased joined text must
contain "date" and one of "type" / "transaction" / "amount"); defaults to 0. -/
def extractFindHeader : List (Nat × List Cell) → Nat
  | [] => 0
  | (i, row) :: rest =>
    let row_str := rowJoinedLower row
    if pyContains "date" row_str ∧ (pyContains "type" row_str
        ∨ pyContains "transaction" row_str ∨ pyContains "amount" row_str) then i
    else extractFindHeader rest

/-- The cell cleaning of `extract_gl_totals`
(`replace ',' '' / '$' '' / '(' '-' / ')' ''` then `float`). -/
def extractClean? (c : Cell) : Option ℚ :=
  match c with
  | Cell.num q => some q
  | Cell.str s =>
    pyFloatStr? ⟨(s.data.filter fun ch => ¬ (ch = ',' ∨ ch = '$' ∨ ch = ')')).map
      fun ch => if ch = '(' then '-' else ch⟩
  | Cell.empty => none

/-- Balance-column detection of `extract_gl_totals`: in the first
"Total for " row that has one, the right-most column (index ≥ 1) holding a
parseable value; `None` if no such row exists.  The Python truthiness of
`if balance_col: break` cannot bite (the scan stops at index 1). -/
def findBalanceCol : List (List Cell) → Option Nat
  | [] => none
  | row :: rest =>
    let col0 := cellText row 0
    if pyStartsWith col0 "Total for " then
      let cand := (List.range' 1 (row.length - 1)).reverse.findSome? fun j =>
        if cellNotna row j then
          match extractClean? (row.getD j Cell.empty) with
          | some _ => some j
          | none => none
        else none
      match cand with
      | some j => some j
      | none => findBalanceCol rest
    else findBalanceCol rest

/-- One row of the extraction loop of `extract_gl_totals`. -/
def extractStep (header_row : Nat) (balance_col : Option Nat)
    (d : List (String × ℚ)) (ir : Nat × List Cell) : List (String × ℚ) :=
  if ir.1 ≤ header_row then d
  else
    let col0 := cellText ir.2 0
    if pyStartsWith col0 "Total for " then
      let account_name :=
        pyTrim (pyReplace (pyReplace col0 "Total for " "") " with sub-accounts" "")
      let amount :=
        match balance_col with
        | some bc =>
          if bc ≠ 0 ∧ cellNotna ir.2 bc then
            (extractClean? (ir.2.getD bc Cell.empty)).getD 0
          else 0
        | none => 0
      Dict.set d account_name amount
    else d

/-- `extract_gl_totals` from `validation.py`: every "Total for X" line below
the header row, mapped to the balance-column value (0 when missing or
unparseable); later duplicates overwrite earlier ones. -/
def extract_gl_totals (table : List (List Cell)) : List (String × ℚ) :=
  let header_row := extractFindHeader table.enum
  let balance_col := findBalanceCol table
  table.enum.foldl (extractStep header_row balance_col) []

end V

namespace V

open GLA

/-- The matching chain of `validate_gl_parsing` for one GL total: exact key,
then (in one pass over the parsed accounts) case-insensitive equality and
the two `Parent:Child` suffix matches.  Returns the matched name and its
computed total. -/
def matchAccount (parsed_accounts : List (String × AccountSummary))
    (account_name : String) : Option (String × ℚ) :=
  match Dict.lookup parsed_accounts account_name with
  | some summary => some (account_name, summary.total)
  | none =>
    parsed_accounts.findSome? fun pv =>
      if pyLower pv.1 = pyLower account_name then some (pv.1, pv.2.total)
      else if pyEndsWith (pyLower pv.1) (":" ++ pyLower account_name) then some (pv.1, pv.2.total)
      else if pyEndsWith (pyLower account_name) (":" ++ pyLower pv.1) then some (pv.1, pv.2.total)
      else none

/-- Child detection and child-sum of `validate_gl_parsing` for an unmatched
parent account. -/
def childTotal (parsed_accounts : List (String × AccountSummary))
    (account_name : String) : Option ℚ :=
  let isChild : String → Bool := fun pn =>
    pyStartsWith pn (account_name ++ ":")
      ∨ pyStartsWith (pyLower pn) (pyLower account_name ++ ":")
  if parsed_accounts.any (fun pv => isChild pv.1) then
    some ((parsed_accounts.filterMap fun pv =>
      if isChild pv.1 then some pv.2.total else none).sum)
  else none

/-- The tolerance test of `validate_gl_parsing`: the variance is *within*
tolerance when the absolute variance is at most `tolerance_abs` **or** the
percentage variance is at most `tolerance_pct`. -/
def withinTolerance (variance pct_variance tolerance_pct tolerance_abs : ℚ) : Bool :=
  |variance| ≤ tolerance_abs ∨ pct_variance ≤ tolerance_pct

/-- `pct_variance` as computed by the source (in percent units). -/
def pctVariance (variance expected_total : ℚ) : ℚ :=
  if expected_total ≠ 0 then |variance / expected_total * 100|
  else if variance ≠ 0 then 100 else 0

/-- The full account-matching cascade of `validate_gl_parsing` for one
extracted GL total: exact, case-insensitive and parent:child-suffix matches
via `matchAccount`, then the summed-from-children fallback via `childTotal`;
yields the `matched_account` name and the `actual_total`. -/
def resolvedMatch (parsed_accounts : List (String × AccountSummary))
    (account_name : String) : Option (String × ℚ) :=
  match matchAccount parsed_accounts account_name with
  | some m => some m
  | none =>
    match childTotal parsed_accounts account_name with
    | some t => some (account_name ++ " (summed from children)", t)
    | none => none

/-- The discrepancy check of `validate_gl_parsing` for one extracted GL
total. -/
def checkOne (parsed_accounts : List (String × AccountSummary))
    (tolerance_pct tolerance_abs : ℚ) (av : String × ℚ) : List Discrepancy :=
  let account_name := av.1
  let expected_total := av.2
  match resolvedMatch parsed_accounts account_name with
  | none =>
    [{ account := account_name, matched_as := none, expected := expected_total,
       actual := 0, variance := expected_total, pct_variance := 100,
       issue := "Account missing from parsed data" }]
  | some m =>
    let actual_total := m.2
    let variance := actual_total - expected_total
    let pct_variance := pctVariance variance expected_total
    if ¬ withinTolerance variance pct_variance tolerance_pct tolerance_abs then
      [{ account := account_name, matched_as := some m.1, expected := expected_total,
         actual := actual_total, variance := variance, pct_variance := pct_variance,
         issue := "Total mismatch" }]
    else []

/-- The missing-account (COA completeness) loop of `validate_gl_parsing`.
An all-whitespace COA key would raise `IndexError` in the source
(`coa_account.split()[0]`); such keys are treated as skipped here. -/
def missingAccounts (parsed_accounts : List (String × AccountSummary))
    (account_map : List (String × AccountType)) : List String :=
  account_map.foldl (fun missing cv =>
    let coa_account := cv.1
    let first_word_digit :=
      match pySplitWs coa_account with
      | w :: _ => w.data.any Char.isDigit
      | [] => false
    if first_word_digit then missing
    else
      let found := parsed_accounts.any fun pv =>
        pyLower coa_account = pyLower pv.1
          ∨ pyEndsWith (pyLower pv.1) (":" ++ pyLower coa_account)
          ∨ pyEndsWith (pyLower coa_account) (":" ++ pyLower pv.1)
      if ¬ found ∧ ¬ missing.contains coa_account then
        let is_parent := parsed_accounts.any fun pv =>
          pyStartsWith (pyLower pv.1) (pyLower coa_account ++ ":")
        if ¬ is_parent then missing ++ [coa_account] else missing
      else missing) []

/-- `validate_gl_parsing` from `validation.py`.  Python's falsy `None`/empty
default for `account_map` is modelled by the empty list. -/
def validate_gl_parsing (table : List (List Cell))
    (parsed_accounts : List (String × AccountSummary))
    (account_map : List (String × AccountType) := [])
    (tolerance_pct : ℚ := 0.01) (tolerance_abs : ℚ := 0.02) : ValidationResult :=
  let gl_totals := extract_gl_totals table
  if gl_totals = [] then
    { passed := true, total_discrepancies := 0, discrepancies := [],
      missing_accounts := [],
      warnings := ["Could not extract 'Total for' lines from GL - unable to validate totals"] }
  else
    let discrepancies := gl_totals.foldl
      (fun ds av => ds ++ checkOne parsed_accounts tolerance_pct tolerance_abs av) []
    let missing_accounts :=
      if account_map ≠ [] then missingAccounts parsed_accounts account_map else []
    { passed := discrepancies = [],
      total_discrepancies := discrepancies.length,
      discrepancies := discrepancies,
      missing_accounts := missing_accounts,
      warnings := [] }

end V

/-! ## Shared lemmas and sample inputs -/

attribute [local semireducible] Rat.add Rat.mul Rat.inv Rat.sub Rat.ofScientific


namespace Dict

theorem lookup_cons (k0 : String) (v0 : α) (rest : List (String × α)) (k : String) :
    lookup ((k0, v0) :: rest) k = if k0 = k then some v0 else lookup rest k := by
  by_cases h : k0 = k <;> simp [lookup, List.find?, h]

theorem lookup_nil (k : String) : lookup ([] : List (String × α)) k = none := by
  simp [lookup, List.find?]

theorem lookup_set_self (d : List (String × α)) (k : String) (v : α) :
    lookup (set d k v) k = some v := by
  induction d with
  | nil => simp [set, lookup, List.find?]
  | cons kv rest ih =>
    obtain ⟨k0, v0⟩ := kv
    simp only [set]
    by_cases h : k0 = k
    · simp [h, lookup_cons]
    · simp [h, lookup_cons, ih]

theorem lookup_set_ne (d : List (String × α)) (k k' : String) (v : α) (h : k' ≠ k) :
    lookup (set d k v) k' = lookup d k' := by
  have hk : ¬ (k = k') := fun hh => h hh.symm
  induction d with
  | nil => simp [set, lookup_cons, lookup_nil, hk]
  | cons kv rest ih =>
    obtain ⟨k0, v0⟩ := kv
    simp only [set]
    by_cases h0 : k0 = k
    · have hk0 : ¬ (k0 = k') := fun hh => h (h0.symm.trans hh).symm
      rw [if_pos h0, lookup_cons, lookup_cons, if_neg hk, if_neg hk0]
    · rw [if_neg h0, lookup_cons, lookup_cons, ih]

theorem mem_keys_set (d : List (String × α)) (k : String) (v : α) (a : String) :
    a ∈ (set d k v).map Prod.fst ↔ a = k ∨ a ∈ d.map Prod.fst := by
  induction d with
  | nil => simp [set]
  | cons kv rest ih =>
    obtain ⟨k0, v0⟩ := kv
    simp only [set]
    by_cases h0 : k0 = k
    · subst h0
      rw [if_pos rfl]
      simp only [List.map_cons, List.mem_cons]
      tauto
    · simp only [if_neg h0, List.map_cons, List.mem_cons, ih]
      tauto

theorem nodup_keys_set (d : List (String × α)) (k : String) (v : α)
    (h : (d.map Prod.fst).Nodup) : ((set d k v).map Prod.fst).Nodup := by
  induction d with
  | nil => simp [set]
  | cons kv rest ih =>
    obtain ⟨k0, v0⟩ := kv
    simp only [List.map_cons, List.nodup_cons] at h
    simp only [set]
    by_cases h0 : k0 = k
    · subst h0
      rw [if_pos rfl]
      simp only [List.map_cons, List.nodup_cons]
      exact h
    · simp only [if_neg h0, List.map_cons, List.nodup_cons]
      refine ⟨fun hmem => ?_, ih h.2⟩
      rcases (mem_keys_set rest k v k0).mp hmem with h1 | h1
      · exact h0 h1
      · exact h.1 h1


theorem lookup_eq_some_mem (d : List (String × α)) (k : String) (v : α)
    (h : lookup d k = some v) : (k, v) ∈ d := by
  induction d with
  | nil => simp [lookup, List.find?] at h
  | cons kv rest ih =>
    obtain ⟨k0, v0⟩ := kv
    rw [lookup_cons] at h
    by_cases h0 : k0 = k
    · rw [if_pos h0] at h
      subst h0
      cases h
      exact List.mem_cons_self _ _
    · rw [if_neg h0] at h
      exact List.mem_cons_of_mem _ (ih h)

theorem eq_of_mem_of_nodup_keys (d : List (String × α)) (k : String) (v v' : α)
    (hnd : (d.map Prod.fst).Nodup) (h : (k, v) ∈ d) (h' : (k, v') ∈ d) : v = v' := by
  induction d with
  | nil => simp at h
  | cons kv rest ih =>
    simp only [List.map_cons, List.nodup_cons] at hnd
    rcases List.mem_cons.mp h with rfl | h1
    · rcases List.mem_cons.mp h' with hh | h1'
      · exact congrArg Prod.snd hh.symm
      · exact absurd (List.mem_map_of_mem Prod.fst h1') (by simpa using hnd.1)
    · rcases List.mem_cons.mp h' with rfl | h1'
      · exact absurd (List.mem_map_of_mem Prod.fst h1) (by simpa using hnd.1)
      · exact ih hnd.2 h1 h1'

end Dict

namespace EA

theorem mem_insertBy (lt : α → α → Bool) (x a : α) (l : List α) :
    a ∈ insertBy lt x l ↔ a = x ∨ a ∈ l := by
  induction l with
  | nil => simp [insertBy]
  | cons y ys ih =>
    simp only [insertBy]
    by_cases h : lt x y
    · simp [h, List.mem_cons]
    · simp [h, List.mem_cons, ih]
      tauto

theorem pairwise_insertBy (lt : α → α → Bool) (le : α → α → Prop)
    (h1 : ∀ x y, ¬ lt x y = true → le y x)
    (h2 : ∀ x y, lt x y = true → le x y)
    (h3 : ∀ x z w, lt x z = true → le z w → le x w)
    (x : α) (l : List α) (hl : l.Pairwise le) : (insertBy lt x l).Pairwise le := by
  induction l with
  | nil => simp [insertBy]
  | cons y ys ih =>
    rw [List.pairwise_cons] at hl
    simp only [insertBy]
    by_cases h : lt x y
    · rw [if_pos h, List.pairwise_cons]
      refine ⟨fun z hz => ?_, List.pairwise_cons.mpr hl⟩
      rcases List.mem_cons.mp hz with rfl | hz'
      · exact h2 _ _ h
      · exact h3 _ _ _ h (hl.1 z hz')
    · rw [if_neg h, List.pairwise_cons]
      refine ⟨fun z hz => ?_, ih hl.2⟩
      rcases (mem_insertBy lt x z ys).mp hz with rfl | hz'
      · exact h1 _ _ h
      · exact hl.1 z hz'

theorem mem_pySortBy_aux (lt : α → α → Bool) (l : List α) :
    ∀ (acc : List α) (a : α), a ∈ l.foldl (fun acc x => insertBy lt x acc) acc ↔ a ∈ acc ∨ a ∈ l := by
  induction l with
  | nil => simp
  | cons y ys ih =>
    intro acc a
    simp only [List.foldl_cons, ih, mem_insertBy, List.mem_cons]
    tauto

theorem mem_pySortBy (lt : α → α → Bool) (l : List α) (a : α) :
    a ∈ pySortBy lt l ↔ a ∈ l := by
  simp [pySortBy, mem_pySortBy_aux]

theorem pairwise_pySortBy (lt : α → α → Bool) (le : α → α → Prop)
    (h1 : ∀ x y, ¬ lt x y = true → le y x)
    (h2 : ∀ x y, lt x y = true → le x y)
    (h3 : ∀ x z w, lt x z = true → le z w → le x w)
    (l : List α) : (pySortBy lt l).Pairwise le := by
  suffices h : ∀ acc, acc.Pairwise le →
      (l.foldl (fun acc x => insertBy lt x acc) acc).Pairwise le by
    exact h [] List.Pairwise.nil
  induction l with
  | nil => intro acc hacc; simpa using hacc
  | cons y ys ih =>
    intro acc hacc
    exact ih _ (pairwise_insertBy lt le h1 h2 h3 y acc hacc)

theorem keyLt_prop (x y : ℚ × ℚ × ℚ) :
    keyLt x y = true ↔
      x.1 < y.1 ∨ (x.1 = y.1 ∧ (x.2.1 < y.2.1 ∨ (x.2.1 = y.2.1 ∧ x.2.2 < y.2.2))) := by
  simp [keyLt]

theorem keyLt_asymm (x y : ℚ × ℚ × ℚ) (h : keyLt x y = true) : keyLt y x = false := by
  rw [Bool.eq_false_iff]
  intro h'
  rw [keyLt_prop] at h h'
  rcases h with h | ⟨e1, h⟩ <;> rcases h' with h' | ⟨e1', h'⟩
  · linarith
  · linarith
  · linarith
  · rcases h with h | ⟨e2, h⟩ <;> rcases h' with h' | ⟨e2', h'⟩
    · linarith
    · linarith
    · linarith
    · linarith

theorem keyLt_trans (x y z : ℚ × ℚ × ℚ) (hxy : keyLt x y = true) (hyz : keyLt y z = true) :
    keyLt x z = true := by
  rw [keyLt_prop] at *
  rcases hxy with h | ⟨e1, h⟩ <;> rcases hyz with h' | ⟨e1', h'⟩
  · exact Or.inl (lt_trans h h')
  · exact Or.inl (e1' ▸ h)
  · exact Or.inl (e1 ▸ h')
  · refine Or.inr ⟨e1.trans e1', ?_⟩
    rcases h with h | ⟨e2, h⟩ <;> rcases h' with h' | ⟨e2', h'⟩
    · exact Or.inl (lt_trans h h')
    · exact Or.inl (e2' ▸ h)
    · exact Or.inl (e2 ▸ h')
    · exact Or.inr ⟨e2.trans e2', lt_trans h h'⟩

theorem keyLe_of_not_lt (x y : ℚ × ℚ × ℚ) (h : ¬ keyLt x y = true) : keyLe y x = true := by
  simp only [keyLe, decide_eq_true_eq]
  exact h

theorem keyLe_of_lt (x y : ℚ × ℚ × ℚ) (h : keyLt x y = true) : keyLe x y = true := by
  simp only [keyLe, decide_eq_true_eq]
  simp [keyLt_asymm x y h]

theorem keyLe_trans_lt (x z w : ℚ × ℚ × ℚ) (h : keyLt x z = true) (h' : keyLe z w = true) :
    keyLe x w = true := by
  simp only [keyLe, decide_eq_true_eq] at *
  intro hwx
  exact h' (keyLt_trans w x z hwx h)

end EA

/-! ## Sample inputs used by concrete theorems -/

/-- A GL header row in the standard QBO layout. -/
def sampleGLHeader : List Cell :=
  [Cell.empty, Cell.str "Date", Cell.str "Transaction Type", Cell.str "Num", Cell.str "Adj",
   Cell.str "Name", Cell.str "Memo/Description", Cell.str "Split", Cell.str "Amount",
   Cell.str "Balance"]

/-- A small GL whose Utilities transactions sum to 1150 while its
"Total for Utilities" line states 1200. -/
def sampleGLTable : List (List Cell) :=
  [ [Cell.str "Acme Co"],
    [Cell.str "General Ledger"],
    [Cell.str "January - December 2025"],
    [],
    sampleGLHeader,
    [Cell.str "Utilities"],
    [Cell.empty, Cell.str "01/15/2025", Cell.str "Bill", Cell.empty, Cell.empty,
     Cell.str "PGE", Cell.str "Monthly bill", Cell.empty, Cell.num 600, Cell.num 600],
    [Cell.empty, Cell.str "02/15/2025", Cell.str "Bill", Cell.empty, Cell.empty,
     Cell.str "PGE", Cell.str "Monthly bill", Cell.empty, Cell.num 550, Cell.num 1150],
    [Cell.str "Total for Utilities", Cell.empty, Cell.empty, Cell.empty, Cell.empty,
     Cell.empty, Cell.empty, Cell.empty, Cell.empty, Cell.num 1200] ]

def sampleGLMap : List (String × GLA.AccountType) := [("Utilities", GLA.AccountType.expense)]

/-- The first parsed account of `sampleGLTable`. -/
def sampleGLPair : String × GLA.AccountSummary :=
  (GLA.parse_gl_with_mapping sampleGLTable sampleGLMap "auto").1.getD 0
    ("", { name := "", account_type := .unknown, total := 0, transaction_count := 0,
           transactions := [] })

/-- C8: `parse_currency` strips currency symbols, separators and whitespace,
negates parenthesized values, and returns 0.0 on blank / dash / unparseable
input, as claimed; totality of the embedding models "never raises". -/
theorem C8_parse_currency :
    PL.parse_currency (Cell.str "$1,234.56") = 1234.56
    ∧ PL.parse_currency (Cell.str "(500.00)") = -500
    ∧ PL.parse_currency (Cell.str "-") = 0
    ∧ PL.parse_currency (Cell.str "") = 0
    ∧ PL.parse_currency (Cell.str "–") = 0
    ∧ PL.parse_currency (Cell.str "—") = 0
    ∧ PL.parse_currency (Cell.str "abc") = 0
    ∧ PL.parse_currency (Cell.str "12.34.56") = 0
    ∧ PL.parse_currency (Cell.str " $2,000.75 ") = 2000.75
    ∧ PL.parse_currency (Cell.str "(1,000.00)") = -1000
    ∧ PL.parse_currency Cell.empty = 0 := by
  refine ⟨by decide, by decide, by decide, by decide, by decide, by decide,
    by decide, by decide, by decide, by decide, by decide⟩

/-- C10: when no "Total for X" line can be extracted, `validate_gl_parsing`
passes with zero discrepancies, no missing accounts, and a recorded
warning. -/
theorem C10_validation_skipped (table : List (List Cell))
    (parsed_accounts : List (String × GLA.AccountSummary))
    (account_map : List (String × GLA.AccountType)) (tolerance_pct tolerance_abs : ℚ)
    (h : V.extract_gl_totals table = []) :
    V.validate_gl_parsing table parsed_accounts account_map tolerance_pct tolerance_abs =
      { passed := true, total_discrepancies := 0, discrepancies := [],
        missing_accounts := [],
        warnings := ["Could not extract 'Total for' lines from GL - unable to validate totals"] } := by
  simp [V.validate_gl_parsing, h]

/-- A GL-shaped table with a header row but no "Total for X" line. -/
def sampleNoTotalsTable : List (List Cell) :=
  [ [Cell.str "Acme Co"], sampleGLHeader, [Cell.str "Utilities"] ]

/-- Witness for C10 at a concrete table without "Total for" lines. -/
theorem C10_validation_skipped_witness :
    V.validate_gl_parsing sampleNoTotalsTable [] [] 0.01 0.02 =
      { passed := true, total_discrepancies := 0, discrepancies := [],
        missing_accounts := [],
        warnings := ["Could not extract 'Total for' lines from GL - unable to validate totals"] } :=
  C10_validation_skipped sampleNoTotalsTable [] [] 0.01 0.02 (by decide)

namespace GLA

/-- The per-row hit condition of `detect_date_format`: a present cell whose
text contains '/' and whose first slash-component is numeric and exceeds
12. -/
def dayfirstSignal (date_col : Nat) (row : List Cell) : Bool :=
  cellNotna row date_col &&
    (let date_str := pyTrim (row.getD date_col Cell.empty).toStr
     pyContains "/" date_str &&
       (decide (2 ≤ (pySplitOn date_str '/').length) &&
         (pyIsDigits ((pySplitOn date_str '/').getD 0 "") &&
           decide (12 < pyStrToNat ((pySplitOn date_str '/').getD 0 "")))))

theorem dayfirstSignal_eq (dc : Nat) (row : List Cell) :
    dayfirstSignal dc row =
      (cellNotna row dc &&
        (pyContains "/" (pyTrim (row.getD dc Cell.empty).toStr) &&
          (decide (2 ≤ (pySplitOn (pyTrim (row.getD dc Cell.empty).toStr) '/').length) &&
            (pyIsDigits ((pySplitOn (pyTrim (row.getD dc Cell.empty).toStr) '/').getD 0 "") &&
              decide (12 < pyStrToNat
                ((pySplitOn (pyTrim (row.getD dc Cell.empty).toStr) '/').getD 0 "")))))) := rfl

theorem detectDateAux_eq_any (dc : Nat) (l : List (Nat × List Cell)) :
    detectDateAux dc l = l.any fun p => decide (5 ≤ p.1) && dayfirstSignal dc p.2 := by
  induction l with
  | nil => rfl
  | cons p rest ih =>
    obtain ⟨i, row⟩ := p
    simp only [detectDateAux, List.any_cons]
    by_cases h5 : i < 5
    · have hd : decide (5 ≤ i) = false := by simp only [decide_eq_false_iff_not]; omega
      rw [if_pos h5, ih, hd, Bool.false_and, Bool.false_or]
    · have hd : decide (5 ≤ i) = true := by simp only [decide_eq_true_eq]; omega
      rw [if_neg h5, hd, Bool.true_and, dayfirstSignal_eq dc row]
      by_cases hn : cellNotna row dc
      · rw [if_pos hn, hn, Bool.true_and]
        by_cases hc : pyContains "/" (pyTrim ((row.getD dc Cell.empty)).toStr) = true
        · rw [if_pos hc, hc, Bool.true_and]
          by_cases hl : 2 ≤ (pySplitOn (pyTrim ((row.getD dc Cell.empty)).toStr) '/').length
          · rw [if_pos hl, decide_eq_true hl, Bool.true_and]
            by_cases hdig :
                pyIsDigits ((pySplitOn (pyTrim ((row.getD dc Cell.empty)).toStr) '/').getD 0 "")
                  = true
            · rw [if_pos hdig, hdig, Bool.true_and]
              by_cases hgt :
                  12 < pyStrToNat
                    ((pySplitOn (pyTrim ((row.getD dc Cell.empty)).toStr) '/').getD 0 "")
              · rw [if_pos hgt, decide_eq_true hgt, Bool.true_or]
              · rw [if_neg hgt, ih, decide_eq_false hgt, Bool.false_or]
            · have h0 : ¬ ((0 : Nat) > 12) := by omega
              rw [if_neg hdig, if_neg h0, ih,
                Bool.eq_false_iff.mpr hdig, Bool.false_and, Bool.false_or]
          · rw [if_neg hl, ih, decide_eq_false hl, Bool.false_and, Bool.false_or]
        · rw [if_neg hc, ih, Bool.eq_false_iff.mpr hc, Bool.false_and, Bool.false_or]
      · rw [if_neg hn, ih, Bool.eq_false_iff.mpr hn, Bool.false_and, Bool.false_or]

end GLA

/-- A table whose scanned region (row index ≥ 5) contains "25/03/2025". -/
def sampleDmyTable : List (List Cell) :=
  [[], [], [], [], [], [Cell.empty, Cell.str "25/03/2025"]]

/-- A table with only month-first-compatible dates. -/
def sampleMdyTable : List (List Cell) :=
  [[], [], [], [], [], [Cell.empty, Cell.str "03/25/2025"], [Cell.empty, Cell.str "04/05/2025"]]

/-- C9: day-first detection returns true iff some scanned date string with a
'/' has a numeric first component exceeding 12 (scanned: row index ≥ 5 in
the date column), with the claimed concrete examples, and is overridden by
the explicit `date_format` option. -/
theorem C9_detect_dayfirst :
    (∀ (df : List (List Cell)) (dc : Nat),
       GLA.detect_date_format df dc = true ↔
         ∃ p ∈ df.enum, 5 ≤ p.1 ∧ GLA.dayfirstSignal dc p.2 = true)
    ∧ GLA.detect_date_format sampleDmyTable = true
    ∧ GLA.detect_date_format sampleMdyTable = false
    ∧ (∀ df, GLA.resolveDayfirst "dmy" df = true)
    ∧ (∀ df, GLA.resolveDayfirst "mdy" df = false)
    ∧ (∀ df, GLA.resolveDayfirst "auto" df = GLA.detect_date_format df) := by
  refine ⟨?_, by decide, by decide, fun df => rfl, fun df => rfl, fun df => rfl⟩
  intro df dc
  rw [GLA.detect_date_format, GLA.detectDateAux_eq_any, List.any_eq_true]
  constructor
  · rintro ⟨p, hp, h⟩
    rw [Bool.and_eq_true, decide_eq_true_eq] at h
    exact ⟨p, hp, h.1, h.2⟩
  · rintro ⟨p, hp, h1, h2⟩
    exact ⟨p, hp, by rw [Bool.and_eq_true, decide_eq_true_eq]; exact ⟨h1, h2⟩⟩

/-- The QBO-format GL of `sampleGLTable` reshaped for `parse_qbo_gl`
(header within the first rows, as that parser expects). -/
def sampleQboTable : List (List Cell) :=
  [ [Cell.str "Acme Co"], [], [], [],
    sampleGLHeader,
    [Cell.str "Utilities"],
    [Cell.empty, Cell.str "01/15/2025", Cell.str "Bill", Cell.empty, Cell.empty,
     Cell.str "PGE", Cell.str "Monthly bill", Cell.empty, Cell.num 600, Cell.num 600],
    [Cell.empty, Cell.str "02/15/2025", Cell.str "Bill", Cell.empty, Cell.empty,
     Cell.str "PGE", Cell.str "Monthly bill", Cell.empty, Cell.num 550, Cell.num 1150],
    [Cell.str "Total for Utilities", Cell.empty, Cell.empty, Cell.empty, Cell.empty,
     Cell.empty, Cell.empty, Cell.empty, Cell.empty, Cell.num 1200] ]

/-- C1 counterexample: `parse_qbo_gl` takes the Utilities total (1200) from
the file's "Total for Utilities" balance even though its transactions sum to
1150 — the claimed invariant fails for this parser. -/
theorem C1_counterexample :
    (Dict.lookup (EA.parse_qbo_gl sampleQboTable sampleGLMap).1 "Utilities").map
        GLA.AccountSummary.total = some 1200
    ∧ ((Dict.lookup (EA.parse_qbo_gl sampleQboTable sampleGLMap).1 "Utilities").map
        fun a => (a.transactions.map GLA.Transaction.amount).sum) = some 1150
    ∧ (1200 : ℚ) ≠ 1150 := by
  refine ⟨by decide, by decide, by norm_num⟩

/-- C1 (amended): every account produced by `parse_gl_with_mapping` has its
total recomputed as the exact sum of its transactions' amounts; `parse_qbo_gl`
does not share the invariant (its totals come from the file's "Total for X"
balances, as the concrete conjunct shows). -/
theorem C1_total_is_transaction_sum :
    (∀ (table : List (List Cell)) (account_map : List (String × GLA.AccountType))
       (date_format : String) (p : String × GLA.AccountSummary),
       p ∈ (GLA.parse_gl_with_mapping table account_map date_format).1 →
       p.2.total = (p.2.transactions.map GLA.Transaction.amount).sum)
    ∧ (Dict.lookup (EA.parse_qbo_gl sampleQboTable sampleGLMap).1 "Utilities").map
        GLA.AccountSummary.total = some 1200
    ∧ ((Dict.lookup (EA.parse_qbo_gl sampleQboTable sampleGLMap).1 "Utilities").map
        fun a => (a.transactions.map GLA.Transaction.amount).sum) = some 1150 := by
  refine ⟨?_, by decide, by decide⟩
  intro table account_map date_format p hp
  simp only [GLA.parse_gl_with_mapping] at hp
  rcases List.mem_map.mp hp with ⟨q, _, rfl⟩
  rfl

/-- Witness for C1's amended theorem at `sampleGLTable`: its (unique) parsed
account satisfies the total-equals-sum invariant. -/
theorem C1_total_is_transaction_sum_witness :
    sampleGLPair.2.total = (sampleGLPair.2.transactions.map GLA.Transaction.amount).sum :=
  C1_total_is_transaction_sum.1 sampleGLTable sampleGLMap "auto" sampleGLPair (by decide)

namespace V

theorem extractStep_cases (header_row : Nat) (balance_col : Option Nat)
    (d : List (String × ℚ)) (ir : Nat × List Cell) :
    extractStep header_row balance_col d ir = d
      ∨ ∃ k v, extractStep header_row balance_col d ir = Dict.set d k v := by
  rw [extractStep.eq_def]
  dsimp only
  split_ifs
  · exact Or.inl rfl
  · exact Or.inr ⟨_, _, rfl⟩
  · exact Or.inl rfl

theorem nodup_keys_foldl_step {β : Type} (f : List (String × ℚ) → β → List (String × ℚ))
    (hf : ∀ d b, f d b = d ∨ ∃ k v, f d b = Dict.set d k v) (l : List β) :
    ∀ (d : List (String × ℚ)),
      (d.map Prod.fst).Nodup → ((l.foldl f d).map Prod.fst).Nodup := by
  induction l with
  | nil => intro d hd; simpa using hd
  | cons b rest ih =>
    intro d hd
    rw [List.foldl_cons]
    rcases hf d b with h | ⟨k, v, h⟩
    · rw [h]; exact ih d hd
    · rw [h]; exact ih _ (Dict.nodup_keys_set d k v hd)

theorem extract_gl_totals_nodup_keys (table : List (List Cell)) :
    ((extract_gl_totals table).map Prod.fst).Nodup := by
  rw [extract_gl_totals]
  exact nodup_keys_foldl_step _ (extractStep_cases _ _) table.enum [] (by simp)

theorem foldl_append_eq_append_bind {β γ : Type} (g : β → List γ) (l : List β) :
    ∀ ds, l.foldl (fun ds av => ds ++ g av) ds = ds ++ l.flatMap g := by
  induction l with
  | nil => intro ds; simp
  | cons b rest ih => intro ds; simp [ih]

theorem checkOne_account (parsed : List (String × GLA.AccountSummary)) (tp ta : ℚ)
    (av : String × ℚ) (d : Discrepancy) (hd : d ∈ checkOne parsed tp ta av) :
    d.account = av.1 := by
  rw [checkOne] at hd
  cases hma : resolvedMatch parsed av.1 with
  | some m =>
    rw [hma] at hd
    dsimp only at hd
    split_ifs at hd with hcond
    all_goals first
      | (simp only [List.mem_singleton] at hd; subst hd; rfl)
      | (subst hd; rfl)
      | simp at hd
  | none =>
    rw [hma] at hd
    dsimp only at hd
    first
      | (simp only [List.mem_singleton] at hd; subst hd; rfl)
      | (subst hd; rfl)

theorem checkOne_matched (parsed : List (String × GLA.AccountSummary)) (tp ta : ℚ)
    (av : String × ℚ) (m : String × ℚ)
    (h : resolvedMatch parsed av.1 = some m) :
    checkOne parsed tp ta av =
      (if ¬ withinTolerance (m.2 - av.2)
          (pctVariance (m.2 - av.2) av.2) tp ta then
        [{ account := av.1, matched_as := some m.1, expected := av.2,
           actual := m.2, variance := m.2 - av.2,
           pct_variance := pctVariance (m.2 - av.2) av.2,
           issue := "Total mismatch" }]
      else []) := by
  rw [checkOne, h]

theorem resolvedMatch_exact (parsed : List (String × GLA.AccountSummary))
    (name : String) (summary : GLA.AccountSummary)
    (h : Dict.lookup parsed name = some summary) :
    resolvedMatch parsed name = some (name, summary.total) := by
  rw [resolvedMatch, matchAccount, h]

end V

/-- A computed Utilities summary totalling 1150 (the parsed side of the
validator example). -/
def sampleUtilities1150 : GLA.AccountSummary :=
  { name := "Utilities", account_type := .expense, total := 1150,
    transaction_count := 0, transactions := [] }

/-- A GL stating "Total for Utilities" = 1000, against a computed total of
1000.05: the absolute tolerance (0.02) is exceeded but the percentage one is
not. -/
def sampleTolTable : List (List Cell) :=
  [ [Cell.str "Acme Co"], sampleGLHeader,
    [Cell.str "Utilities"],
    [Cell.str "Total for Utilities", Cell.empty, Cell.empty, Cell.empty, Cell.empty,
     Cell.empty, Cell.empty, Cell.empty, Cell.empty, Cell.num 1000] ]

def sampleUtilities100005 : GLA.AccountSummary :=
  { name := "Utilities", account_type := .expense, total := 1000.05,
    transaction_count := 0, transactions := [] }

/-- C2 counterexample: the variance 0.05 exceeds the absolute tolerance
(0.02 — under the claim's "either alone suffices" rule this must be
flagged), yet `validate_gl_parsing` reports no discrepancy and passes,
because the percentage tolerance is met. -/
theorem C2_counterexample :
    (V.validate_gl_parsing sampleTolTable [("Utilities", sampleUtilities100005)]).discrepancies
        = []
    ∧ (V.validate_gl_parsing sampleTolTable [("Utilities", sampleUtilities100005)]).passed = true
    ∧ |(1000.05 : ℚ) - 1000| > 0.02 := by
  refine ⟨by decide, by decide, by decide⟩

/-- C2 (amended): for every extracted "Total for X" total whose account is
matched against a computed AccountSummary — by exact name, case-insensitive
name, parent:child suffix in either direction, or by summing children of an
unmatched parent — a discrepancy (with variance equal to the matched computed
total minus the stated total) is reported iff the variance exceeds the
absolute tolerance AND the percentage variance (in percent units) exceeds
`tolerance_pct`; `passed` is false iff at least one discrepancy is reported;
and on the Utilities example (stated 1200, computed 1150) exactly one
discrepancy is reported with variance −50 and `passed = False`. -/
theorem C2_discrepancy_iff :
    (∀ (table : List (List Cell)) (parsed : List (String × GLA.AccountSummary))
       (account_map : List (String × GLA.AccountType))
       (tp ta : ℚ) (name : String) (expected : ℚ) (mname : String) (actual : ℚ),
       Dict.lookup (V.extract_gl_totals table) name = some expected →
       V.resolvedMatch parsed name = some (mname, actual) →
       ((∃ d ∈ (V.validate_gl_parsing table parsed account_map tp ta).discrepancies,
           d.account = name ∧ d.variance = actual - expected) ↔
         (|actual - expected| > ta
           ∧ V.pctVariance (actual - expected) expected > tp)))
    ∧ (∀ (table : List (List Cell)) (parsed : List (String × GLA.AccountSummary))
       (account_map : List (String × GLA.AccountType)) (tp ta : ℚ),
        ((V.validate_gl_parsing table parsed account_map tp ta).passed = true ↔
          (V.validate_gl_parsing table parsed account_map tp ta).discrepancies = []))
    ∧ (V.validate_gl_parsing sampleGLTable [("Utilities", sampleUtilities1150)]).passed = false
    ∧ (V.validate_gl_parsing sampleGLTable
        [("Utilities", sampleUtilities1150)]).discrepancies.map V.Discrepancy.variance = [-50]
    ∧ (V.validate_gl_parsing sampleGLTable
        [("Utilities", sampleUtilities1150)]).total_discrepancies = 1 := by
  refine ⟨?_, ?_, by decide, by decide, by decide⟩
  · intro table parsed account_map tp ta name expected mname actual hexp hmatch
    have hmem : (name, expected) ∈ V.extract_gl_totals table :=
      Dict.lookup_eq_some_mem _ _ _ hexp
    have hne : ¬ (V.extract_gl_totals table = []) := by
      intro h
      rw [h] at hmem
      simp at hmem
    have hnd := V.extract_gl_totals_nodup_keys table
    simp only [V.validate_gl_parsing]
    rw [if_neg hne]
    dsimp only
    rw [V.foldl_append_eq_append_bind, List.nil_append]
    constructor
    · rintro ⟨d, hd, hacc, hvar⟩
      rcases List.mem_flatMap.mp hd with ⟨av, hav, hdav⟩
      have h1 : av.1 = name := (V.checkOne_account parsed tp ta av d hdav) ▸ hacc
      have hav' : (name, av.2) ∈ V.extract_gl_totals table := by
        rw [← h1]
        exact hav
      have h2 : av.2 = expected :=
        Dict.eq_of_mem_of_nodup_keys _ _ _ _ hnd hav' hmem
      have hav2 : av = (name, expected) := by
        obtain ⟨a1, a2⟩ := av
        dsimp only at h1 h2
        rw [h1, h2]
      rw [hav2] at hdav
      rw [V.checkOne_matched parsed tp ta (name, expected) (mname, actual) hmatch] at hdav
      by_cases hcond : ¬ V.withinTolerance (actual - expected)
          (V.pctVariance (actual - expected) expected) tp ta = true
      · simp only [V.withinTolerance, decide_eq_true_eq, not_or, not_le] at hcond
        exact hcond
      · rw [if_neg hcond] at hdav
        simp at hdav
    · rintro ⟨h1, h2⟩
      have hcond : ¬ V.withinTolerance (actual - expected)
          (V.pctVariance (actual - expected) expected) tp ta = true := by
        simp only [V.withinTolerance, decide_eq_true_eq, not_or, not_le]
        exact ⟨h1, h2⟩
      refine ⟨⟨name, some mname, expected, actual, actual - expected,
          V.pctVariance (actual - expected) expected, "Total mismatch"⟩,
        List.mem_flatMap.mpr ⟨(name, expected), hmem, ?_⟩, rfl, rfl⟩
      rw [V.checkOne_matched parsed tp ta (name, expected) (mname, actual) hmatch,
        if_pos hcond]
      exact List.mem_singleton.mpr rfl
  · intro table parsed account_map tp ta
    simp only [V.validate_gl_parsing]
    by_cases hne : V.extract_gl_totals table = []
    · rw [if_pos hne]
      simp
    · rw [if_neg hne]
      dsimp only
      simp

/-- Witness for C2's amended theorem: the Utilities 1200-vs-1150 mismatch is
reported as a discrepancy for "Utilities" with variance 1150 − 1200 = −50. -/
theorem C2_discrepancy_iff_witness :
    (Dict.lookup (V.extract_gl_totals sampleGLTable) "Utilities" = some 1200
      ∧ V.resolvedMatch [("Utilities", sampleUtilities1150)] "Utilities"
          = some ("Utilities", 1150))
    ∧ ∃ d ∈ (V.validate_gl_parsing sampleGLTable [("Utilities", sampleUtilities1150)]
        [] 0.01 0.02).discrepancies, d.account = "Utilities" ∧ d.variance = 1150 - 1200 :=
  ⟨⟨by decide, by decide⟩,
    (C2_discrepancy_iff.1 sampleGLTable [("Utilities", sampleUtilities1150)] [] 0.01 0.02
      "Utilities" 1200 "Utilities" 1150 (by decide) (by decide)).mpr
      ⟨by decide, by decide⟩⟩

namespace EA

theorem variance_stats_consistency (monthly : List (String × ℚ)) :
    (calculate_variance_stats monthly).is_consistent =
      decide ((calculate_variance_stats monthly).cv_sq < CV_CONSISTENT_THRESHOLD ^ 2) := by
  rw [calculate_variance_stats]
  by_cases h1 : monthly.length < 2
  · rw [if_pos h1]
    exact (decide_eq_true (by norm_num [CV_CONSISTENT_THRESHOLD])).symm
  · rw [if_neg h1]
    dsimp only
    by_cases h2 : ((Dict.values monthly).filter fun v => v > 0).length < 2
    · rw [if_pos h2]
      exact (decide_eq_true (by norm_num [CV_CONSISTENT_THRESHOLD])).symm
    · rw [if_neg h2]
      by_cases h3 : ((Dict.values monthly).filter fun v => v > 0).sum
          / ((((Dict.values monthly).filter fun v => v > 0).length : ℚ)) = 0
      · rw [if_pos h3]
        exact (decide_eq_true (by norm_num [CV_CONSISTENT_THRESHOLD])).symm
      · rw [if_neg h3]

theorem buildCategory_flags (tb : List (String × List GLA.Transaction))
    (te rev : ℚ) (name : String) (acct : GLA.AccountSummary) :
    ((buildCategory tb te rev name acct).is_consistent = true ↔
      (buildCategory tb te rev name acct).cv_sq < CV_CONSISTENT_THRESHOLD ^ 2)
    ∧ ((buildCategory tb te rev name acct).has_anomaly = true ↔
      ((buildCategory tb te rev name acct).consistency_expected = true
        ∧ (buildCategory tb te rev name acct).is_consistent = false
        ∧ (buildCategory tb te rev name acct).cv_sq > CV_CONSISTENT_THRESHOLD ^ 2)) := by
  constructor
  · show (calculate_variance_stats _).is_consistent = true ↔ _
    rw [variance_stats_consistency]
    simp [buildCategory]
  · show decide _ = true ↔ _
    rw [decide_eq_true_eq]
    simp only [buildCategory, Bool.not_eq_true]
    try tauto

theorem foldl_append_invariant {β γ : Type} (P : γ → Prop) (f : List γ → β → List γ)
    (hf : ∀ acc b c, c ∈ f acc b → c ∈ acc ∨ P c) (l : List β) :
    ∀ acc, (∀ c ∈ acc, P c) → ∀ c ∈ l.foldl f acc, P c := by
  induction l with
  | nil => intro acc hacc c hc; exact hacc c hc
  | cons b rest ih =>
    intro acc hacc c hc
    refine ih (f acc b) ?_ c hc
    intro c' hc'
    rcases hf acc b c' hc' with h | h
    · exact hacc c' h
    · exact h

theorem mem_analyze_flags (accounts : List (String × GLA.AccountSummary))
    (transactions : List GLA.Transaction) (total_revenue : ℚ)
    (c : ExpenseCategory) (hc : c ∈ analyze_expense_categories accounts transactions total_revenue) :
    (c.is_consistent = true ↔ c.cv_sq < CV_CONSISTENT_THRESHOLD ^ 2)
    ∧ (c.has_anomaly = true ↔ (c.consistency_expected = true ∧ c.is_consistent = false
        ∧ c.cv_sq > CV_CONSISTENT_THRESHOLD ^ 2)) := by
  rw [analyze_expense_categories] at hc
  rw [mem_pySortBy] at hc
  refine foldl_append_invariant
    (fun c => (c.is_consistent = true ↔ c.cv_sq < CV_CONSISTENT_THRESHOLD ^ 2)
      ∧ (c.has_anomaly = true ↔ (c.consistency_expected = true ∧ c.is_consistent = false
          ∧ c.cv_sq > CV_CONSISTENT_THRESHOLD ^ 2)))
    _ ?_ accounts [] (by simp) c hc
  intro acc b c' hc'
  split_ifs at hc' with h1 h2
  · exact Or.inl hc'
  · exact Or.inl hc'
  · rcases List.mem_append.mp hc' with h | h
    · exact Or.inl h
    · right
      rw [List.mem_singleton] at h
      subst h
      exact buildCategory_flags _ _ _ _ _

end EA

/-- A Rent expense transaction for the C4 examples. -/
def sampleRentTxn (d : String) (amt : ℚ) : GLA.Transaction :=
  { date := d, account := "Rent", account_type := .expense,
    description := "", amount := amt, vendor := "LLC" }

/-- Six flat Rent months of 1000. -/
def sampleRentTxns1 : List GLA.Transaction :=
  [sampleRentTxn "01/15/2025" 1000, sampleRentTxn "02/15/2025" 1000,
   sampleRentTxn "03/15/2025" 1000, sampleRentTxn "04/15/2025" 1000,
   sampleRentTxn "05/15/2025" 1000, sampleRentTxn "06/15/2025" 1000]

/-- Rent months [1000, 1000, 2500, 1000, 400, 1000]. -/
def sampleRentTxns2 : List GLA.Transaction :=
  [sampleRentTxn "01/15/2025" 1000, sampleRentTxn "02/15/2025" 1000,
   sampleRentTxn "03/15/2025" 2500, sampleRentTxn "04/15/2025" 1000,
   sampleRentTxn "05/15/2025" 400, sampleRentTxn "06/15/2025" 1000]

def sampleRentAccounts1 : List (String × GLA.AccountSummary) :=
  [("Rent", { name := "Rent", account_type := .expense, total := 6000,
              transaction_count := 6, transactions := sampleRentTxns1 })]

def sampleRentAccounts2 : List (String × GLA.AccountSummary) :=
  [("Rent", { name := "Rent", account_type := .expense, total := 6900,
              transaction_count := 6, transactions := sampleRentTxns2 })]

/-- C4: every analyzed category satisfies
`is_consistent ↔ CV < CV_CONSISTENT_THRESHOLD` and
`has_anomaly ↔ consistency_expected ∧ ¬is_consistent ∧ CV > CV_CONSISTENT_THRESHOLD`
(CV represented by its square, equivalently), together with the two concrete
"Rent" examples of the claim. -/
theorem C4_anomaly_flags :
    (∀ (accounts : List (String × GLA.AccountSummary))
       (transactions : List GLA.Transaction) (total_revenue : ℚ)
       (c : EA.ExpenseCategory),
       c ∈ EA.analyze_expense_categories accounts transactions total_revenue →
       ((c.is_consistent = true ↔ c.cv_sq < EA.CV_CONSISTENT_THRESHOLD ^ 2)
         ∧ (c.has_anomaly = true ↔ (c.consistency_expected = true ∧ c.is_consistent = false
             ∧ c.cv_sq > EA.CV_CONSISTENT_THRESHOLD ^ 2))))
    ∧ (EA.analyze_expense_categories sampleRentAccounts1 sampleRentTxns1 100000).map
        (fun c => (c.is_consistent, c.has_anomaly)) = [(true, false)]
    ∧ (EA.analyze_expense_categories sampleRentAccounts1 sampleRentTxns1 100000).map
        EA.ExpenseCategory.cv_sq = [0]
    ∧ (EA.analyze_expense_categories sampleRentAccounts2 sampleRentTxns2 100000).map
        EA.ExpenseCategory.has_anomaly = [true]
    ∧ (EA.analyze_expense_categories sampleRentAccounts2 sampleRentTxns2 100000).map
        (fun c => decide (c.cv_sq > EA.CV_CONSISTENT_THRESHOLD ^ 2)) = [true] := by
  exact ⟨fun accounts txns rev c hc => EA.mem_analyze_flags accounts txns rev c hc,
    by decide, by decide, by decide, by decide⟩

/-- The single category analyzed from the flat-Rent example. -/
def sampleRentCategory : EA.ExpenseCategory :=
  (EA.analyze_expense_categories sampleRentAccounts1 sampleRentTxns1 100000).getD 0
    { name := "", total := 0, pct_of_total_expenses := 0, pct_of_revenue := 0,
      transaction_count := 0, avg_transaction := 0 }

/-- Witness for C4 at the flat-Rent example's category. -/
theorem C4_anomaly_flags_witness :
    (sampleRentCategory.is_consistent = true ↔
      sampleRentCategory.cv_sq < EA.CV_CONSISTENT_THRESHOLD ^ 2)
    ∧ (sampleRentCategory.has_anomaly = true ↔
      (sampleRentCategory.consistency_expected = true
        ∧ sampleRentCategory.is_consistent = false
        ∧ sampleRentCategory.cv_sq > EA.CV_CONSISTENT_THRESHOLD ^ 2)) :=
  C4_anomaly_flags.1 sampleRentAccounts1 sampleRentTxns1 100000 sampleRentCategory (by decide)

namespace EA

theorem filter_pos_eq_filter_ne (l : List ℚ) (h : ∀ v ∈ l, 0 ≤ v) :
    (l.filter fun v => v > 0) = l.filter fun v => v ≠ 0 := by
  induction l with
  | nil => rfl
  | cons a rest ih =>
    have ha := h a (List.mem_cons_self a rest)
    have hrest := ih fun v hv => h v (List.mem_cons_of_mem a hv)
    rw [List.filter_cons, List.filter_cons, hrest]
    by_cases h0 : a = 0
    · subst h0
      norm_num
    · have hpos : 0 < a := lt_of_le_of_ne ha (Ne.symm h0)
      simp [h0, hpos]

end EA

/-- C5: the variance statistics are computed over exactly the non-zero
monthly values (for the analyzer's non-negative monthly sums, the source's
`v > 0` filter coincides with non-zero), with mean, sample variance and
squared CV as claimed, and the degenerate `< 2` case returning
`(0, 0, 0, True)`. -/
theorem C5_variance_nonzero_months :
    ∀ (monthly : List (String × ℚ)), (∀ v ∈ Dict.values monthly, 0 ≤ v) →
      ((((Dict.values monthly).filter fun v => v ≠ 0).length < 2 →
          EA.calculate_variance_stats monthly = ⟨0, 0, 0, true⟩)
       ∧ (2 ≤ ((Dict.values monthly).filter fun v => v ≠ 0).length →
          (EA.calculate_variance_stats monthly).mean
              = ((Dict.values monthly).filter fun v => v ≠ 0).sum
                / ((((Dict.values monthly).filter fun v => v ≠ 0)).length : ℚ)
            ∧ (EA.calculate_variance_stats monthly).var
              = EA.sampleVar ((Dict.values monthly).filter fun v => v ≠ 0)
                  ((EA.calculate_variance_stats monthly).mean)
            ∧ (EA.calculate_variance_stats monthly).cv_sq
              = (EA.calculate_variance_stats monthly).var
                / ((EA.calculate_variance_stats monthly).mean) ^ 2
            ∧ 0 < (EA.calculate_variance_stats monthly).mean)) := by
  intro monthly h
  have hfe := EA.filter_pos_eq_filter_ne (Dict.values monthly) h
  constructor
  · intro hlen
    rw [EA.calculate_variance_stats]
    by_cases h1 : monthly.length < 2
    · rw [if_pos h1]
    · rw [if_neg h1]
      dsimp only
      rw [if_pos (by rw [hfe]; exact hlen)]
  · intro hlen
    have h1 : ¬ monthly.length < 2 := by
      intro hcon
      have hv : (Dict.values monthly).length = monthly.length := List.length_map _ _
      have hle := List.length_filter_le (fun v => decide (v ≠ 0)) (Dict.values monthly)
      omega
    have h2 : ¬ ((Dict.values monthly).filter fun v => v > 0).length < 2 := by
      rw [hfe]; omega
    have hmean_pos : 0 < ((Dict.values monthly).filter fun v => v > 0).sum
        / ((((Dict.values monthly).filter fun v => v > 0)).length : ℚ) := by
      apply div_pos
      · apply List.sum_pos
        · intro x hx
          have hmx := List.of_mem_filter hx
          simpa using hmx
        · intro hempty
          rw [hempty] at h2
          simp at h2
      · have hlpos : 0 < ((Dict.values monthly).filter fun v => v > 0).length := by omega
        exact_mod_cast hlpos
    rw [EA.calculate_variance_stats, if_neg h1]
    dsimp only
    rw [if_neg h2, if_neg (ne_of_gt hmean_pos)]
    refine ⟨by rw [hfe], by rw [hfe], by rw [hfe], by rw [hfe]; rw [hfe] at hmean_pos; exact hmean_pos⟩

def sampleMonthly : List (String × ℚ) := [("01/2025", 1000), ("02/2025", 1200)]

/-- Witness for C5 at a concrete two-month trend. -/
theorem C5_variance_nonzero_months_witness :
    (EA.calculate_variance_stats sampleMonthly).mean
        = ((Dict.values sampleMonthly).filter fun v => v ≠ 0).sum
          / ((((Dict.values sampleMonthly).filter fun v => v ≠ 0)).length : ℚ)
      ∧ (EA.calculate_variance_stats sampleMonthly).var
        = EA.sampleVar ((Dict.values sampleMonthly).filter fun v => v ≠ 0)
            ((EA.calculate_variance_stats sampleMonthly).mean)
      ∧ (EA.calculate_variance_stats sampleMonthly).cv_sq
        = (EA.calculate_variance_stats sampleMonthly).var
          / ((EA.calculate_variance_stats sampleMonthly).mean) ^ 2
      ∧ 0 < (EA.calculate_variance_stats sampleMonthly).mean :=
  (C5_variance_nonzero_months sampleMonthly (by decide)).2 (by decide)

/-- An expense transaction for the C6 counterexample accounts. -/
def sampleC6Txn (acct d : String) (amt : ℚ) : GLA.Transaction :=
  { date := d, account := acct, account_type := .expense,
    description := "", amount := amt, vendor := "" }

def sampleAlphaTxns : List GLA.Transaction :=
  [sampleC6Txn "Alpha" "01/15/2025" 100, sampleC6Txn "Alpha" "02/15/2025" 140]

def sampleBetaTxns : List GLA.Transaction :=
  [sampleC6Txn "Beta" "01/15/2025" 1000, sampleC6Txn "Beta" "02/15/2025" 1000]

/-- Two expense accounts: "Alpha" (small, CV ≈ 0.236 — inconsistent but
below the volatile threshold 0.50) and "Beta" (large, CV = 0). -/
def sampleAlphaBetaAccounts : List (String × GLA.AccountSummary) :=
  [("Alpha", { name := "Alpha", account_type := .expense, total := 240,
               transaction_count := 2, transactions := sampleAlphaTxns }),
   ("Beta", { name := "Beta", account_type := .expense, total := 2000,
              transaction_count := 2, transactions := sampleBetaTxns })]

/-- Modelled from the claim's wording: a category's group — anomalies first,
then CV above the volatile threshold, then the remainder. -/
def claimGroupC6 (c : EA.ExpenseCategory) : Nat :=
  if c.has_anomaly then 0
  else if c.cv_sq > EA.CV_VOLATILE_THRESHOLD ^ 2 then 1
  else 2

/-- Modelled from the claim's wording: a pair in claimed order — groups
non-decreasing, and the remainder group internally by total descending. -/
def claimPairOkC6 (a b : EA.ExpenseCategory) : Bool :=
  decide (claimGroupC6 a ≤ claimGroupC6 b)
    && (!(decide (claimGroupC6 a = 2) && decide (claimGroupC6 b = 2)) || decide (a.total ≥ b.total))

/-- Modelled from the claim's wording: the list is ordered by group, and
within the remainder group by total descending. -/
def C6_claim_order (l : List EA.ExpenseCategory) : Prop :=
  l.Pairwise fun a b => claimPairOkC6 a b = true

/-- C6 counterexample: both categories are non-anomalous and below the
volatile threshold, so under the claimed ordering the larger one ("Beta",
2000) must come first; the code instead sorts the inconsistent "Alpha"
(CV ≥ 0.15) before it. -/
theorem C6_counterexample :
    (EA.analyze_expense_categories sampleAlphaBetaAccounts
        (sampleAlphaTxns ++ sampleBetaTxns) 100000).map EA.ExpenseCategory.name
      = ["Alpha", "Beta"]
    ∧ (EA.analyze_expense_categories sampleAlphaBetaAccounts
        (sampleAlphaTxns ++ sampleBetaTxns) 100000).map claimGroupC6 = [2, 2]
    ∧ (EA.analyze_expense_categories sampleAlphaBetaAccounts
        (sampleAlphaTxns ++ sampleBetaTxns) 100000).map EA.ExpenseCategory.total
      = [240, 2000]
    ∧ ¬ C6_claim_order (EA.analyze_expense_categories sampleAlphaBetaAccounts
        (sampleAlphaTxns ++ sampleBetaTxns) 100000) := by
  refine ⟨by decide, by decide, by decide, ?_⟩
  rw [C6_claim_order]
  decide

/-- C6 (amended): the analyzer's output is sorted by the source's key —
anomalies first, then (among equal anomaly status) non-consistent categories
by CV descending with consistent ones tied at 0, then total descending; the
volatile threshold plays no part in the sort. -/
theorem C6_sort_order :
    ∀ (accounts : List (String × GLA.AccountSummary))
      (transactions : List GLA.Transaction) (total_revenue : ℚ),
      (EA.analyze_expense_categories accounts transactions total_revenue).Pairwise
        (fun a b => EA.keyLe (EA.catKey a) (EA.catKey b) = true) := by
  intro accounts transactions total_revenue
  rw [EA.analyze_expense_categories]
  exact EA.pairwise_pySortBy _ _
    (fun x y hn => EA.keyLe_of_not_lt (EA.catKey x) (EA.catKey y) hn)
    (fun x y hl => EA.keyLe_of_lt (EA.catKey x) (EA.catKey y) hl)
    (fun x z w hl hle => EA.keyLe_trans_lt (EA.catKey x) (EA.catKey z) (EA.catKey w) hl hle)
    _

theorem decide_or_eq_or (a b : Bool) : decide (a = true ∨ b = true) = (a || b) := by
  cases a <;> cases b <;> rfl

namespace PL

theorem plProcessRow_items (months : List String) (st : PLParseState) (row : List Cell)
    (an : String) (item : PLLineItem)
    (h : item ∈ (plProcessRow months st row an).line_items) :
    item ∈ st.line_items
      ∨ (item.name = an ∧ item.is_total_row =
          (pyStartsWith (pyLower an) "total for " || pyStartsWith (pyLower an) "total ")) := by
  rw [plProcessRow] at h
  dsimp only at h
  split at h
  · repeat' split at h
    all_goals exact Or.inl h
  · dsimp only at h
    rcases List.mem_append.mp h with h' | h'
    · exact Or.inl h'
    · rw [List.mem_singleton] at h'
      subst h'
      exact Or.inr ⟨rfl, decide_or_eq_or _ _⟩

theorem plStep_items (months : List String) (st : PLParseState) (row : List Cell)
    (item : PLLineItem) (h : item ∈ (plStep months st row).line_items) :
    item ∈ st.line_items
      ∨ item.is_total_row = (pyStartsWith (pyLower item.name) "total for "
          || pyStartsWith (pyLower item.name) "total ") := by
  rw [plStep] at h
  dsimp only at h
  split at h
  · exact Or.inl h
  · split at h
    · split at h
      · exact Or.inl h
      · split at h
        · exact Or.inl h
        · rcases plProcessRow_items _ _ _ _ _ h with h' | ⟨hn, ht⟩
          · exact Or.inl h'
          · exact Or.inr (by rw [hn]; exact ht)
    · split at h
      · exact Or.inl h
      · rcases plProcessRow_items _ _ _ _ _ h with h' | ⟨hn, ht⟩
        · exact Or.inl h'
        · exact Or.inr (by rw [hn]; exact ht)

theorem foldl_plStep_items (months : List String) (rows : List (List Cell)) :
    ∀ (st : PLParseState),
      (∀ i ∈ st.line_items, i.is_total_row = (pyStartsWith (pyLower i.name) "total for "
        || pyStartsWith (pyLower i.name) "total ")) →
      ∀ i ∈ (rows.foldl (plStep months) st).line_items,
        i.is_total_row = (pyStartsWith (pyLower i.name) "total for "
          || pyStartsWith (pyLower i.name) "total ") := by
  induction rows with
  | nil => intro st hst i hi; exact hst i hi
  | cons row rest ih =>
    intro st hst i hi
    refine ih (plStep months st row) ?_ i hi
    intro i' hi'
    rcases plStep_items months st row i' hi' with h | h
    · exact hst i' h
    · exact h

theorem fillDerived_line_items (s : PLStatement) (m : String) :
    (fillDerived s m).line_items = s.line_items := by
  rw [fillDerived, fillNI, fillNOI, fillGP]
  split_ifs <;> rfl

theorem foldl_fillDerived_line_items (ms : List String) :
    ∀ (s : PLStatement), (ms.foldl fillDerived s).line_items = s.line_items := by
  induction ms with
  | nil => intro s; rfl
  | cons m rest ih => intro s; rw [List.foldl_cons, ih, fillDerived_line_items]

theorem applyCalculatedSums_line_items (s : PLStatement) :
    (applyCalculatedSums s).line_items = s.line_items := by
  rw [applyCalculatedSums]
  split_ifs <;> rfl

theorem calculate_section_totals_line_items (s : PLStatement) :
    (calculate_section_totals s).line_items = s.line_items := by
  rw [calculate_section_totals, foldl_fillDerived_line_items, applyCalculatedSums_line_items]

theorem addItemValues_total_row (acc : SectionSums) (item : PLLineItem)
    (h : item.is_total_row = true) : addItemValues acc item = acc := by
  rw [addItemValues, if_pos h]

theorem foldl_addItemValues_filter (items : List PLLineItem) :
    ∀ (init : SectionSums),
      items.foldl addItemValues init
        = (items.filter fun i => ! i.is_total_row).foldl addItemValues init := by
  induction items with
  | nil => intro init; rfl
  | cons i rest ih =>
    intro init
    rw [List.foldl_cons, List.filter_cons]
    by_cases h : i.is_total_row
    · rw [addItemValues_total_row init i h]
      have hb : (! i.is_total_row) = false := by rw [h]; rfl
      rw [hb]
      simp only [Bool.false_eq_true, if_false]
      exact ih init
    · have hb : (! i.is_total_row) = true := by
        rw [Bool.eq_false_iff.mpr h]; rfl
      rw [hb]
      simp only [if_true]
      rw [List.foldl_cons]
      exact ih (addItemValues init i)

end PL

/-- A P&L-by-month table with an account-level "Total for Utilities" row and
QBO section totals "Total for Income"/"Total for Expenses". -/
def sampleC7Table : List (List Cell) :=
  [ [Cell.str "Profit and Loss"],
    [Cell.str "Acme Co"],
    [Cell.str "January - December, 2025"],
    [],
    [Cell.str "Distribution account", Cell.str "January", Cell.str "Total"],
    [Cell.str "Income"],
    [Cell.str "  Sales", Cell.num 100, Cell.num 100],
    [Cell.str "Total for Income", Cell.num 100, Cell.num 100],
    [Cell.str "Expenses"],
    [Cell.str "  Utilities", Cell.num 40, Cell.num 40],
    [Cell.str "Total for Utilities", Cell.num 40, Cell.num 40],
    [Cell.str "Total for Expenses", Cell.num 40, Cell.num 40] ]

/-- C7 counterexample: the input's "Total for Income" row is not retained in
`line_items` (it is captured into the statement's `total_income` instead),
contradicting "still retained in the statement's line_items list". -/
theorem C7_counterexample :
    sampleC7Table.any (fun row => cellText row 0 = "Total for Income") = true
    ∧ ((PL.parse_pl_csv sampleC7Table).line_items.filter
        fun i => i.name = "Total for Income") = []
    ∧ (PL.parse_pl_csv sampleC7Table).total_income = [("January", 100), ("Total", 100)] := by
  refine ⟨by decide, by decide, by decide⟩

/-- C7 (amended): every retained line item is marked `is_total_row` exactly
when its name starts with "total for "/"total " (case-insensitive);
section-sum aggregation ignores total rows; account-level total rows such as
"Total for Utilities" are retained, while the QBO section-total names are
captured into the derived totals and not retained. -/
theorem C7_total_rows :
    (∀ (table : List (List Cell)) (item : PL.PLLineItem),
       item ∈ (PL.parse_pl_csv table).line_items →
       item.is_total_row = (pyStartsWith (pyLower item.name) "total for "
         || pyStartsWith (pyLower item.name) "total "))
    ∧ (∀ (items : List PL.PLLineItem) (init : PL.SectionSums),
        items.foldl PL.addItemValues init
          = (items.filter fun i => ! i.is_total_row).foldl PL.addItemValues init)
    ∧ ((PL.parse_pl_csv sampleC7Table).line_items.map
        fun i => (i.name, i.is_total_row))
      = [("Sales", false), ("Utilities", false), ("Total for Utilities", true)] := by
  refine ⟨?_, ?_, by decide⟩
  · intro table item h
    rw [PL.parse_pl_csv] at h
    rw [PL.calculate_section_totals_line_items] at h
    simp only [apply_ite (fun s : PL.PLStatement => s.line_items), ite_self] at h
    exact PL.foldl_plStep_items _ _ {} (by intro i hi; simp at hi) item h
  · intro items init
    exact PL.foldl_addItemValues_filter items init

/-- The retained "Total for Utilities" item of `sampleC7Table`. -/
def sampleC7TotalItem : PL.PLLineItem :=
  (PL.parse_pl_csv sampleC7Table).line_items.getD 2
    { name := "", «section» := .unknown, parent := none, monthly_values := [],
      total := 0, is_total_row := false, indent_level := 0 }

/-- Witness for C7's amended theorem at the retained total row. -/
theorem C7_total_rows_witness :
    sampleC7TotalItem.is_total_row
      = (pyStartsWith (pyLower sampleC7TotalItem.name) "total for "
        || pyStartsWith (pyLower sampleC7TotalItem.name) "total ") :=
  C7_total_rows.1 sampleC7Table sampleC7TotalItem (by decide)

namespace PL

theorem applyCalculatedSums_gross_profit (s : PLStatement) :
    (applyCalculatedSums s).gross_profit = s.gross_profit := by
  rw [applyCalculatedSums]; split_ifs <;> rfl

theorem applyCalculatedSums_net_operating_income (s : PLStatement) :
    (applyCalculatedSums s).net_operating_income = s.net_operating_income := by
  rw [applyCalculatedSums]; split_ifs <;> rfl

theorem applyCalculatedSums_net_income (s : PLStatement) :
    (applyCalculatedSums s).net_income = s.net_income := by
  rw [applyCalculatedSums]; split_ifs <;> rfl

theorem fillGP_fields (s : PLStatement) (m : String) :
    (fillGP s m).total_income = s.total_income ∧ (fillGP s m).total_cogs = s.total_cogs
      ∧ (fillGP s m).total_expenses = s.total_expenses
      ∧ (fillGP s m).total_other_income = s.total_other_income
      ∧ (fillGP s m).total_other_expense = s.total_other_expense
      ∧ (fillGP s m).net_operating_income = s.net_operating_income
      ∧ (fillGP s m).net_income = s.net_income := by
  rw [fillGP]; split_ifs <;> exact ⟨rfl, rfl, rfl, rfl, rfl, rfl, rfl⟩

theorem fillNOI_fields (s : PLStatement) (m : String) :
    (fillNOI s m).total_income = s.total_income ∧ (fillNOI s m).total_cogs = s.total_cogs
      ∧ (fillNOI s m).total_expenses = s.total_expenses
      ∧ (fillNOI s m).total_other_income = s.total_other_income
      ∧ (fillNOI s m).total_other_expense = s.total_other_expense
      ∧ (fillNOI s m).gross_profit = s.gross_profit
      ∧ (fillNOI s m).net_income = s.net_income := by
  rw [fillNOI]; split_ifs <;> exact ⟨rfl, rfl, rfl, rfl, rfl, rfl, rfl⟩

theorem fillNI_fields (s : PLStatement) (m : String) :
    (fillNI s m).total_income = s.total_income ∧ (fillNI s m).total_cogs = s.total_cogs
      ∧ (fillNI s m).total_expenses = s.total_expenses
      ∧ (fillNI s m).total_other_income = s.total_other_income
      ∧ (fillNI s m).total_other_expense = s.total_other_expense
      ∧ (fillNI s m).gross_profit = s.gross_profit
      ∧ (fillNI s m).net_operating_income = s.net_operating_income := by
  rw [fillNI]; split_ifs <;> exact ⟨rfl, rfl, rfl, rfl, rfl, rfl, rfl⟩

theorem fillDerived_total_income (s : PLStatement) (m : String) :
    (fillDerived s m).total_income = s.total_income := by
  rw [fillDerived, (fillNI_fields _ _).1, (fillNOI_fields _ _).1, (fillGP_fields _ _).1]

theorem fillDerived_total_cogs (s : PLStatement) (m : String) :
    (fillDerived s m).total_cogs = s.total_cogs := by
  rw [fillDerived, (fillNI_fields _ _).2.1, (fillNOI_fields _ _).2.1, (fillGP_fields _ _).2.1]

theorem fillDerived_total_expenses (s : PLStatement) (m : String) :
    (fillDerived s m).total_expenses = s.total_expenses := by
  rw [fillDerived, (fillNI_fields _ _).2.2.1, (fillNOI_fields _ _).2.2.1,
    (fillGP_fields _ _).2.2.1]

theorem fillDerived_total_other_income (s : PLStatement) (m : String) :
    (fillDerived s m).total_other_income = s.total_other_income := by
  rw [fillDerived, (fillNI_fields _ _).2.2.2.1, (fillNOI_fields _ _).2.2.2.1,
    (fillGP_fields _ _).2.2.2.1]

theorem fillDerived_total_other_expense (s : PLStatement) (m : String) :
    (fillDerived s m).total_other_expense = s.total_other_expense := by
  rw [fillDerived, (fillNI_fields _ _).2.2.2.2.1, (fillNOI_fields _ _).2.2.2.2.1,
    (fillGP_fields _ _).2.2.2.2.1]

theorem fillDerived_gross_profit (s : PLStatement) (m : String) :
    (fillDerived s m).gross_profit = (fillGP s m).gross_profit := by
  rw [fillDerived, (fillNI_fields _ _).2.2.2.2.2.1, (fillNOI_fields _ _).2.2.2.2.2.1]

theorem fillDerived_noi (s : PLStatement) (m : String) :
    (fillDerived s m).net_operating_income = (fillNOI (fillGP s m) m).net_operating_income := by
  rw [fillDerived, (fillNI_fields _ _).2.2.2.2.2.2]

theorem foldl_fillDerived_total_income (ms : List String) :
    ∀ s : PLStatement, (ms.foldl fillDerived s).total_income = s.total_income := by
  induction ms with
  | nil => intro s; rfl
  | cons m rest ih => intro s; rw [List.foldl_cons, ih, fillDerived_total_income]

theorem foldl_fillDerived_total_cogs (ms : List String) :
    ∀ s : PLStatement, (ms.foldl fillDerived s).total_cogs = s.total_cogs := by
  induction ms with
  | nil => intro s; rfl
  | cons m rest ih => intro s; rw [List.foldl_cons, ih, fillDerived_total_cogs]

theorem foldl_fillDerived_total_expenses (ms : List String) :
    ∀ s : PLStatement, (ms.foldl fillDerived s).total_expenses = s.total_expenses := by
  induction ms with
  | nil => intro s; rfl
  | cons m rest ih => intro s; rw [List.foldl_cons, ih, fillDerived_total_expenses]

theorem foldl_fillDerived_total_other_income (ms : List String) :
    ∀ s : PLStatement, (ms.foldl fillDerived s).total_other_income = s.total_other_income := by
  induction ms with
  | nil => intro s; rfl
  | cons m rest ih => intro s; rw [List.foldl_cons, ih, fillDerived_total_other_income]

theorem foldl_fillDerived_total_other_expense (ms : List String) :
    ∀ s : PLStatement, (ms.foldl fillDerived s).total_other_expense = s.total_other_expense := by
  induction ms with
  | nil => intro s; rfl
  | cons m rest ih => intro s; rw [List.foldl_cons, ih, fillDerived_total_other_expense]

end PL

namespace PL

theorem fillGP_lookup_self (s : PLStatement) (m : String)
    (h : Dict.lookup s.gross_profit m = none) :
    Dict.lookup (fillGP s m).gross_profit m
      = some (Dict.get0 s.total_income m - Dict.get0 s.total_cogs m) := by
  rw [fillGP, if_pos (by simp [Dict.member, h])]
  exact Dict.lookup_set_self _ _ _

theorem fillGP_lookup_ne (s : PLStatement) (m m' : String) (h : m ≠ m') :
    Dict.lookup (fillGP s m').gross_profit m = Dict.lookup s.gross_profit m := by
  rw [fillGP]
  split_ifs
  · rfl
  · exact Dict.lookup_set_ne _ _ _ _ h

theorem fillGP_lookup_preserve (s : PLStatement) (m m' : String) (v : ℚ)
    (h : Dict.lookup s.gross_profit m = some v) :
    Dict.lookup (fillGP s m').gross_profit m = some v := by
  by_cases he : m = m'
  · subst he
    rw [fillGP, if_neg (by simp [Dict.member, h])]
    exact h
  · rw [fillGP_lookup_ne s m m' he, h]

theorem fillGP_lookup_isSome (s : PLStatement) (m : String) :
    (Dict.lookup (fillGP s m).gross_profit m).isSome = true := by
  cases hl : Dict.lookup s.gross_profit m with
  | none => rw [fillGP_lookup_self s m hl]; rfl
  | some v => rw [fillGP_lookup_preserve s m m v hl]; rfl

theorem fillDerived_gp_lookup_ne (s : PLStatement) (m m' : String) (h : m ≠ m') :
    Dict.lookup (fillDerived s m').gross_profit m = Dict.lookup s.gross_profit m := by
  rw [fillDerived_gross_profit, fillGP_lookup_ne s m m' h]

theorem fillDerived_gp_lookup_preserve (s : PLStatement) (m m' : String) (v : ℚ)
    (h : Dict.lookup s.gross_profit m = some v) :
    Dict.lookup (fillDerived s m').gross_profit m = some v := by
  rw [fillDerived_gross_profit, fillGP_lookup_preserve s m m' v h]

theorem foldl_fillDerived_gp_preserve (ms : List String) :
    ∀ (s : PLStatement) (m : String) (v : ℚ), Dict.lookup s.gross_profit m = some v →
      Dict.lookup ((ms.foldl fillDerived s)).gross_profit m = some v := by
  induction ms with
  | nil => intro s m v h; exact h
  | cons m0 rest ih =>
    intro s m v h
    rw [List.foldl_cons]
    exact ih _ m v (fillDerived_gp_lookup_preserve s m m0 v h)

theorem foldl_fillDerived_gp (ms : List String) :
    ∀ (s : PLStatement) (m : String), m ∈ ms → Dict.lookup s.gross_profit m = none →
      Dict.lookup ((ms.foldl fillDerived s)).gross_profit m
        = some (Dict.get0 s.total_income m - Dict.get0 s.total_cogs m) := by
  induction ms with
  | nil => intro s m hm; simp at hm
  | cons m0 rest ih =>
    intro s m hm h
    rw [List.foldl_cons]
    by_cases he : m = m0
    · subst he
      refine foldl_fillDerived_gp_preserve rest _ m _ ?_
      rw [fillDerived_gross_profit, fillGP_lookup_self s m h]
    · have hm' : m ∈ rest := by
        rcases List.mem_cons.mp hm with he' | hm'
        · exact absurd he' he
        · exact hm'
      have hnone : Dict.lookup (fillDerived s m0).gross_profit m = none := by
        rw [fillDerived_gp_lookup_ne s m m0 he]
        exact h
      rw [ih (fillDerived s m0) m hm' hnone, fillDerived_total_income, fillDerived_total_cogs]

end PL

namespace PL

theorem fillNOI_lookup_self (s : PLStatement) (m : String)
    (h : Dict.lookup s.net_operating_income m = none) :
    Dict.lookup (fillNOI s m).net_operating_income m
      = some (Dict.get0 s.gross_profit m - Dict.get0 s.total_expenses m) := by
  rw [fillNOI, if_pos (by simp [Dict.member, h])]
  exact Dict.lookup_set_self _ _ _

theorem fillNOI_lookup_ne (s : PLStatement) (m m' : String) (h : m ≠ m') :
    Dict.lookup (fillNOI s m').net_operating_income m
      = Dict.lookup s.net_operating_income m := by
  rw [fillNOI]
  split_ifs
  · rfl
  · exact Dict.lookup_set_ne _ _ _ _ h

theorem fillNOI_lookup_preserve (s : PLStatement) (m m' : String) (v : ℚ)
    (h : Dict.lookup s.net_operating_income m = some v) :
    Dict.lookup (fillNOI s m').net_operating_income m = some v := by
  by_cases he : m = m'
  · subst he
    rw [fillNOI, if_neg (by simp [Dict.member, h])]
    exact h
  · rw [fillNOI_lookup_ne s m m' he, h]

theorem fillNOI_lookup_isSome (s : PLStatement) (m : String) :
    (Dict.lookup (fillNOI s m).net_operating_income m).isSome = true := by
  cases hl : Dict.lookup s.net_operating_income m with
  | none => rw [fillNOI_lookup_self s m hl]; rfl
  | some v => rw [fillNOI_lookup_preserve s m m v hl]; rfl

theorem fillNI_lookup_self (s : PLStatement) (m : String)
    (h : Dict.lookup s.net_income m = none) :
    Dict.lookup (fillNI s m).net_income m
      = some (Dict.get0 s.net_operating_income m
          + (Dict.get0 s.total_other_income m - Dict.get0 s.total_other_expense m)) := by
  rw [fillNI, if_pos (by simp [Dict.member, h])]
  exact Dict.lookup_set_self _ _ _

theorem fillNI_lookup_ne (s : PLStatement) (m m' : String) (h : m ≠ m') :
    Dict.lookup (fillNI s m').net_income m = Dict.lookup s.net_income m := by
  rw [fillNI]
  split_ifs
  · rfl
  · exact Dict.lookup_set_ne _ _ _ _ h

theorem fillNI_lookup_preserve (s : PLStatement) (m m' : String) (v : ℚ)
    (h : Dict.lookup s.net_income m = some v) :
    Dict.lookup (fillNI s m').net_income m = some v := by
  by_cases he : m = m'
  · subst he
    rw [fillNI, if_neg (by simp [Dict.member, h])]
    exact h
  · rw [fillNI_lookup_ne s m m' he, h]

theorem fillDerived_noi_lookup_ne (s : PLStatement) (m m' : String) (h : m ≠ m') :
    Dict.lookup (fillDerived s m').net_operating_income m
      = Dict.lookup s.net_operating_income m := by
  rw [fillDerived_noi, fillNOI_lookup_ne _ m m' h, (fillGP_fields _ _).2.2.2.2.2.1]

theorem fillDerived_noi_lookup_preserve (s : PLStatement) (m m' : String) (v : ℚ)
    (h : Dict.lookup s.net_operating_income m = some v) :
    Dict.lookup (fillDerived s m').net_operating_income m = some v := by
  rw [fillDerived_noi]
  refine fillNOI_lookup_preserve _ m m' v ?_
  rw [(fillGP_fields _ _).2.2.2.2.2.1]
  exact h

theorem fillDerived_noi_self (s : PLStatement) (m : String)
    (h : Dict.lookup s.net_operating_income m = none) :
    Dict.lookup (fillDerived s m).net_operating_income m
      = some (Dict.get0 (fillDerived s m).gross_profit m - Dict.get0 s.total_expenses m) := by
  rw [fillDerived_noi]
  rw [fillNOI_lookup_self _ m (by rw [(fillGP_fields _ _).2.2.2.2.2.1]; exact h)]
  rw [(fillGP_fields _ _).2.2.1, fillDerived_gross_profit]

theorem fillDerived_noi_isSome (s : PLStatement) (m : String) :
    (Dict.lookup (fillDerived s m).net_operating_income m).isSome = true := by
  rw [fillDerived_noi]
  exact fillNOI_lookup_isSome _ m

theorem fillDerived_gp_isSome (s : PLStatement) (m : String) :
    (Dict.lookup (fillDerived s m).gross_profit m).isSome = true := by
  rw [fillDerived_gross_profit]
  exact fillGP_lookup_isSome s m

theorem fillDerived_ni_lookup_ne (s : PLStatement) (m m' : String) (h : m ≠ m') :
    Dict.lookup (fillDerived s m').net_income m = Dict.lookup s.net_income m := by
  rw [fillDerived, fillNI_lookup_ne _ m m' h, (fillNOI_fields _ _).2.2.2.2.2.2,
    (fillGP_fields _ _).2.2.2.2.2.2]

theorem fillDerived_ni_lookup_preserve (s : PLStatement) (m m' : String) (v : ℚ)
    (h : Dict.lookup s.net_income m = some v) :
    Dict.lookup (fillDerived s m').net_income m = some v := by
  rw [fillDerived]
  refine fillNI_lookup_preserve _ m m' v ?_
  rw [(fillNOI_fields _ _).2.2.2.2.2.2, (fillGP_fields _ _).2.2.2.2.2.2]
  exact h

theorem fillDerived_ni_self (s : PLStatement) (m : String)
    (h : Dict.lookup s.net_income m = none) :
    Dict.lookup (fillDerived s m).net_income m
      = some (Dict.get0 (fillDerived s m).net_operating_income m
          + (Dict.get0 s.total_other_income m - Dict.get0 s.total_other_expense m)) := by
  rw [fillDerived]
  rw [fillNI_lookup_self _ m
    (by rw [(fillNOI_fields _ _).2.2.2.2.2.2, (fillGP_fields _ _).2.2.2.2.2.2]; exact h)]
  rw [(fillNOI_fields _ _).2.2.2.1, (fillGP_fields _ _).2.2.2.1,
    (fillNOI_fields _ _).2.2.2.2.1, (fillGP_fields _ _).2.2.2.2.1]
  rw [← fillDerived_noi, ← fillDerived]

end PL

namespace PL

theorem foldl_fillDerived_noi_preserve (ms : List String) :
    ∀ (s : PLStatement) (m : String) (v : ℚ),
      Dict.lookup s.net_operating_income m = some v →
      Dict.lookup ((ms.foldl fillDerived s)).net_operating_income m = some v := by
  induction ms with
  | nil => intro s m v h; exact h
  | cons m0 rest ih =>
    intro s m v h
    rw [List.foldl_cons]
    exact ih _ m v (fillDerived_noi_lookup_preserve s m m0 v h)

theorem foldl_fillDerived_ni_preserve (ms : List String) :
    ∀ (s : PLStatement) (m : String) (v : ℚ),
      Dict.lookup s.net_income m = some v →
      Dict.lookup ((ms.foldl fillDerived s)).net_income m = some v := by
  induction ms with
  | nil => intro s m v h; exact h
  | cons m0 rest ih =>
    intro s m v h
    rw [List.foldl_cons]
    exact ih _ m v (fillDerived_ni_lookup_preserve s m m0 v h)

theorem foldl_fillDerived_noi (ms : List String) :
    ∀ (s : PLStatement) (m : String), m ∈ ms →
      Dict.lookup s.net_operating_income m = none →
      Dict.lookup ((ms.foldl fillDerived s)).net_operating_income m
        = some (Dict.get0 ((ms.foldl fillDerived s)).gross_profit m
            - Dict.get0 s.total_expenses m) := by
  induction ms with
  | nil => intro s m hm; simp at hm
  | cons m0 rest ih =>
    intro s m hm h
    rw [List.foldl_cons]
    by_cases he : m = m0
    · subst he
      obtain ⟨w, hw⟩ := Option.isSome_iff_exists.mp (fillDerived_gp_isSome s m)
      have hfold := foldl_fillDerived_gp_preserve rest (fillDerived s m) m w hw
      have hgp : Dict.get0 (fillDerived s m).gross_profit m = w := by
        rw [Dict.get0, hw]; rfl
      have hgp2 : Dict.get0 ((rest.foldl fillDerived (fillDerived s m))).gross_profit m
          = w := by
        rw [Dict.get0, hfold]; rfl
      have hnoi := fillDerived_noi_self s m h
      rw [hgp] at hnoi
      rw [foldl_fillDerived_noi_preserve rest _ m _ hnoi, hgp2]
    · have hm' : m ∈ rest := by
        rcases List.mem_cons.mp hm with he' | hm'
        · exact absurd he' he
        · exact hm'
      have hnone : Dict.lookup (fillDerived s m0).net_operating_income m = none := by
        rw [fillDerived_noi_lookup_ne s m m0 he]
        exact h
      rw [ih (fillDerived s m0) m hm' hnone, fillDerived_total_expenses]

theorem foldl_fillDerived_ni (ms : List String) :
    ∀ (s : PLStatement) (m : String), m ∈ ms →
      Dict.lookup s.net_income m = none →
      Dict.lookup ((ms.foldl fillDerived s)).net_income m
        = some (Dict.get0 ((ms.foldl fillDerived s)).net_operating_income m
            + (Dict.get0 s.total_other_income m - Dict.get0 s.total_other_expense m)) := by
  induction ms with
  | nil => intro s m hm; simp at hm
  | cons m0 rest ih =>
    intro s m hm h
    rw [List.foldl_cons]
    by_cases he : m = m0
    · subst he
      obtain ⟨w, hw⟩ := Option.isSome_iff_exists.mp (fillDerived_noi_isSome s m)
      have hfold := foldl_fillDerived_noi_preserve rest (fillDerived s m) m w hw
      have hnoi : Dict.get0 (fillDerived s m).net_operating_income m = w := by
        rw [Dict.get0, hw]; rfl
      have hnoi2 : Dict.get0 ((rest.foldl fillDerived (fillDerived s m))).net_operating_income m
          = w := by
        rw [Dict.get0, hfold]; rfl
      have hni := fillDerived_ni_self s m h
      rw [hnoi] at hni
      rw [foldl_fillDerived_ni_preserve rest _ m _ hni, hnoi2]
    · have hm' : m ∈ rest := by
        rcases List.mem_cons.mp hm with he' | hm'
        · exact absurd he' he
        · exact hm'
      have hnone : Dict.lookup (fillDerived s m0).net_income m = none := by
        rw [fillDerived_ni_lookup_ne s m m0 he]
        exact h
      rw [ih (fillDerived s m0) m hm' hnone, fillDerived_total_other_income,
        fillDerived_total_other_expense]

end PL

namespace PL

theorem calc_gp_identity (s : PLStatement) (m : String) (hm : m ∈ allMonthsOf s)
    (h : Dict.lookup s.gross_profit m = none) :
    Dict.get0 (calculate_section_totals s).gross_profit m
      = Dict.get0 (calculate_section_totals s).total_income m
        - Dict.get0 (calculate_section_totals s).total_cogs m := by
  have h1 : Dict.lookup (applyCalculatedSums s).gross_profit m = none := by
    rw [applyCalculatedSums_gross_profit]; exact h
  have h2 := foldl_fillDerived_gp (allMonthsOf s) (applyCalculatedSums s) m hm h1
  rw [calculate_section_totals]
  simp only [Dict.get0]
  rw [h2, Option.getD_some, foldl_fillDerived_total_income, foldl_fillDerived_total_cogs]
  rfl

theorem calc_noi_identity (s : PLStatement) (m : String) (hm : m ∈ allMonthsOf s)
    (h : Dict.lookup s.net_operating_income m = none) :
    Dict.get0 (calculate_section_totals s).net_operating_income m
      = Dict.get0 (calculate_section_totals s).gross_profit m
        - Dict.get0 (calculate_section_totals s).total_expenses m := by
  have h1 : Dict.lookup (applyCalculatedSums s).net_operating_income m = none := by
    rw [applyCalculatedSums_net_operating_income]; exact h
  have h2 := foldl_fillDerived_noi (allMonthsOf s) (applyCalculatedSums s) m hm h1
  rw [calculate_section_totals]
  simp only [Dict.get0]
  rw [h2, Option.getD_some, foldl_fillDerived_total_expenses]
  rfl

theorem calc_ni_identity (s : PLStatement) (m : String) (hm : m ∈ allMonthsOf s)
    (h : Dict.lookup s.net_income m = none) :
    Dict.get0 (calculate_section_totals s).net_income m
      = Dict.get0 (calculate_section_totals s).net_operating_income m
        + (Dict.get0 (calculate_section_totals s).total_other_income m
          - Dict.get0 (calculate_section_totals s).total_other_expense m) := by
  have h1 : Dict.lookup (applyCalculatedSums s).net_income m = none := by
    rw [applyCalculatedSums_net_income]; exact h
  have h2 := foldl_fillDerived_ni (allMonthsOf s) (applyCalculatedSums s) m hm h1
  rw [calculate_section_totals]
  simp only [Dict.get0]
  rw [h2, Option.getD_some, foldl_fillDerived_total_other_income,
    foldl_fillDerived_total_other_expense]
  rfl

end PL

/-- A P&L whose QBO "Gross Profit" row states January = 999 while
January Income − COGS = 100, yet whose "Total" column is internally
consistent (Total gross profit 100 = 100 − 0). -/
def sampleC3Table : List (List Cell) :=
  [ [Cell.str "Profit and Loss"],
    [Cell.str "Acme Co"],
    [Cell.str "January - December, 2025"],
    [],
    [Cell.str "Distribution account", Cell.str "January", Cell.str "Total"],
    [Cell.str "Income"],
    [Cell.str "  Sales", Cell.num 100, Cell.num 100],
    [Cell.str "Total for Income", Cell.num 100, Cell.num 100],
    [Cell.str "Gross Profit", Cell.num 999, Cell.num 100] ]

/-- C3: the monthly identities do NOT hold for every month of a parsed
statement: `sampleC3Table`'s parse has January gross profit 999 but
January income − COGS = 100 (off by 899 ≫ $0.01), and `validate_pl_totals`
reports no warning for it — validation only inspects the "Total" column. -/
theorem C3_counterexample :
    ¬ (|Dict.get0 (PL.parse_pl_csv sampleC3Table).gross_profit "January"
        - (Dict.get0 (PL.parse_pl_csv sampleC3Table).total_income "January"
          - Dict.get0 (PL.parse_pl_csv sampleC3Table).total_cogs "January")| ≤ 1 / 100)
    ∧ "January" ∈ (PL.parse_pl_csv sampleC3Table).months
    ∧ PL.validate_pl_totals (PL.parse_pl_csv sampleC3Table) = [] := by
  refine ⟨?_, by decide, by decide⟩
  decide

/-- C3 (amended): for every month of the all-months list, each of the three
P&L identities holds exactly (hence within $0.01) whenever THAT subtotal's
value for the month was not supplied by the file's own QBO rows — the three
conditions are independent, so a statement with some file-supplied subtotals
still gets the identities for the subtotals it was missing; file-supplied
subtotal values are retained unchanged even when they violate the
identities, and `validate_pl_totals` checks only the "Total" column. -/
theorem C3_identities_for_derived_months (s : PL.PLStatement) (m : String)
    (hm : m ∈ PL.allMonthsOf s) :
    (Dict.lookup s.gross_profit m = none →
      Dict.get0 (PL.calculate_section_totals s).gross_profit m
        = Dict.get0 (PL.calculate_section_totals s).total_income m
          - Dict.get0 (PL.calculate_section_totals s).total_cogs m)
    ∧ (Dict.lookup s.net_operating_income m = none →
      Dict.get0 (PL.calculate_section_totals s).net_operating_income m
        = Dict.get0 (PL.calculate_section_totals s).gross_profit m
          - Dict.get0 (PL.calculate_section_totals s).total_expenses m)
    ∧ (Dict.lookup s.net_income m = none →
      Dict.get0 (PL.calculate_section_totals s).net_income m
        = Dict.get0 (PL.calculate_section_totals s).net_operating_income m
          + (Dict.get0 (PL.calculate_section_totals s).total_other_income m
            - Dict.get0 (PL.calculate_section_totals s).total_other_expense m)) :=
  ⟨fun hgp => PL.calc_gp_identity s m hm hgp,
   fun hnoi => PL.calc_noi_identity s m hm hnoi,
   fun hni => PL.calc_ni_identity s m hm hni⟩

/-- A raw statement with QBO income/COGS/expenses but no derived subtotals,
used to witness the amended C3 theorem at month "January". -/
def sampleC3Stmt : PL.PLStatement :=
  { company_name := "Acme Co", date_range := "", months := ["January"],
    line_items := [],
    total_income := [("January", 100), ("Total", 100)],
    total_cogs := [("January", 30), ("Total", 30)],
    total_expenses := [("January", 20), ("Total", 20)] }

theorem C3_identities_for_derived_months_witness :
    ("January" ∈ PL.allMonthsOf sampleC3Stmt
      ∧ Dict.lookup sampleC3Stmt.gross_profit "January" = none
      ∧ Dict.lookup sampleC3Stmt.net_operating_income "January" = none
      ∧ Dict.lookup sampleC3Stmt.net_income "January" = none)
    ∧ (Dict.get0 (PL.calculate_section_totals sampleC3Stmt).gross_profit "January"
      = Dict.get0 (PL.calculate_section_totals sampleC3Stmt).total_income "January"
        - Dict.get0 (PL.calculate_section_totals sampleC3Stmt).total_cogs "January"
    ∧ Dict.get0 (PL.calculate_section_totals sampleC3Stmt).net_operating_income "January"
      = Dict.get0 (PL.calculate_section_totals sampleC3Stmt).gross_profit "January"
        - Dict.get0 (PL.calculate_section_totals sampleC3Stmt).total_expenses "January"
    ∧ Dict.get0 (PL.calculate_section_totals sampleC3Stmt).net_income "January"
      = Dict.get0 (PL.calculate_section_totals sampleC3Stmt).net_operating_income "January"
        + (Dict.get0 (PL.calculate_section_totals sampleC3Stmt).total_other_income "January"
          - Dict.get0 (PL.calculate_section_totals sampleC3Stmt).total_other_expense "January")) :=
  ⟨⟨by decide, rfl, rfl, rfl⟩,
    ⟨(C3_identities_for_derived_months sampleC3Stmt "January" (by decide)).1 rfl,
     (C3_identities_for_derived_months sampleC3Stmt "January" (by decide)).2.1 rfl,
     (C3_identities_for_derived_months sampleC3Stmt "January" (by decide)).2.2 rfl⟩⟩
